import Mathlib

/-!
Shallow embedding of the `brisc` RISC-V emulator core (crates `brisc-isa`,
`brisc-hw`, `brisc-emu`), in the configuration with the `64-bit`, `m`, `a`
and `c` features enabled (XLEN = 64).

Machine integers are embedded as `Nat` with explicit reduction `% 2^w`
wherever the Rust code relies on wrapping (release-profile) semantics.
On `u64` values, `x >> 12` is embedded as `x / 4096`, `x & 0xFFF` as
`x % 4096`, and `x & 0x7F` as `x % 128`: for natural numbers these are
definitionally the same operations.
-/

/-- Decidable equality on `Except`, for evaluating results on concrete
inputs. -/
instance {ε α : Type} [DecidableEq ε] [DecidableEq α] : DecidableEq (Except ε α) := fun x y =>
  match x, y with
  | .ok a, .ok b =>
    if h : a = b then .isTrue (by rw [h]) else .isFalse (by simp [h])
  | .error a, .error b =>
    if h : a = b then .isTrue (by rw [h]) else .isFalse (by simp [h])
  | .ok _, .error _ => .isFalse (by simp)
  | .error _, .ok _ => .isFalse (by simp)

namespace Brisc

/-- The modulus of the architectural word (`XWord = u64`, XLEN = 64). -/
def W64 : Nat := 2 ^ 64

/-- The modulus of a 32-bit `Word`. -/
def W32 : Nat := 2 ^ 32

/-- `bits!(ty, value, lo..hi)`: extract bits `[lo, hi)` of `value`,
right-aligned (`(value >> lo) & ((1 << (hi-lo)) - 1)`). -/
def bitsOf (v lo hi : Nat) : Nat := v / 2 ^ lo % 2 ^ (hi - lo)

/-- `twiddle!(ty, value, r1, r2, ...)`: concatenate the named bit ranges of
`value` left to right (`result = (result << width) | bits`; the ranges are
disjoint from the accumulated low bits, so `|` is `+`). -/
def twiddle (v : Nat) (rs : List (Nat × Nat)) : Nat :=
  rs.foldl (fun result r => result * 2 ^ (r.2 - r.1) + bitsOf v r.1 r.2) 0

/-- `sign_extend` over `u64`: if bit `index` of `data` is set, set all bits
above it (`data | ((MAX >> index) << index)`, and `(MAX >> i) << i = 2^64 - 2^i`);
otherwise clear them (`data & (MAX >> (63 - index))`, a mask of the low
`index + 1` bits). -/
def sign_extend (data index : Nat) : Nat :=
  if data / 2 ^ index % 2 = 1 then data ||| (W64 - 2 ^ index)
  else data &&& (2 ^ (index + 1) - 1)

/-- Two's-complement reading of a `u64` bit pattern as an `i64`. -/
def toInt64 (x : Nat) : Int := if x < 2 ^ 63 then (x : Int) else (x : Int) - 2 ^ 64

/-- Encoding of an integer back into a `u64` bit pattern (wrapping cast). -/
def ofInt64 (z : Int) : Nat := (z % (2 ^ 64 : Int)).toNat

/-- Two's-complement reading of a `u32` bit pattern as an `i32`. -/
def toInt32 (x : Nat) : Int := if x % W32 < 2 ^ 31 then ((x % W32 : Nat) : Int) else ((x % W32 : Nat) : Int) - 2 ^ 32

/-- Encoding of an integer back into a `u32` bit pattern (wrapping cast). -/
def ofInt32 (z : Int) : Nat := (z % (2 ^ 32 : Int)).toNat

/-! ## Paged sparse memory (`brisc-hw`, `memory/page.rs`, `memory/mod.rs`,
`memory/interface.rs`), instantiated at `SimpleMemory`. -/

/-- `PAGE_ADDRESS_SIZE = 12`; the size of a page in bytes. -/
def PAGE_SIZE : Nat := 4096

/-- A `Page` is 4096 bytes; byte values live at offsets `0..4096`. -/
def Page : Type := Nat → Nat

/-- `EMPTY_PAGE`: a zeroed page. -/
def zeroPage : Page := fun _ => 0

/-- `SimpleMemory`: a sparse map from page index to page. -/
def Mem : Type := Nat → Option Page

/-- The empty memory (`SimpleMemory::new`). -/
def Mem.empty : Mem := fun _ => none

/-- Errors of the memory bus (`MemoryError`). -/
inductive MemoryError where
  | PageNotFound (pageIndex : Nat)
  | UnalignedAccess (addr : Nat)
deriving DecidableEq

/-- `MemoryResult<T>`. -/
abbrev MemoryResult (α : Type) := Except MemoryError α

/-- Point update of the page map (insertion of a page). -/
def mupd (m : Mem) (i : Nat) (p : Page) : Mem :=
  fun j => if j = i then some p else m j

/-- Write `len` bytes (given by `bytes`) into `p` starting at offset `start`
(`page[start..start+len].copy_from_slice(..)`). -/
def pwrite (p : Page) (start : Nat) (bytes : Nat → Nat) (len : Nat) : Page :=
  fun off => if start ≤ off ∧ off < start + len then bytes (off - start) else p off

/-- `page_mut`-or-`alloc`: `SimpleMemory::alloc` inserts an empty page when the
index is unmapped and never fails, so the combined lookup yields the existing
page or a zeroed one, always successfully. -/
def pageOrAlloc (m : Mem) (i : Nat) : MemoryResult Page :=
  match m i with
  | some p => .ok p
  | none => .ok zeroPage

/-- Byte `j` of the little-endian byte decomposition of `v` (`to_le_bytes`). -/
def leByte (v j : Nat) : Nat := v / 2 ^ (8 * j) % 256

/-- `Memory::get_byte`: unmapped pages read as zero, never an error. -/
def get_byte (m : Mem) (address : Nat) : MemoryResult Nat :=
  let pageIndex := address / PAGE_SIZE
  let pageAddress := address % PAGE_SIZE
  match m pageIndex with
  | some page => .ok (page pageAddress)
  | none => .ok 0

/-- `Memory::set_byte`. -/
def set_byte (m : Mem) (address value : Nat) : MemoryResult Mem :=
  let pageIndex := address / PAGE_SIZE
  let pageAddress := address % PAGE_SIZE
  (pageOrAlloc m pageIndex).bind fun page =>
    .ok (mupd m pageIndex (pwrite page pageAddress (fun _ => value) 1))

/-- The value assembled by the scalar getters (`get_halfword` / `get_word` /
`get_doubleword` with `L` = 2 / 4 / 8): the buffer starts zeroed; if the first
page exists it contributes `min L (PAGE_SIZE - page_address)` bytes; the
remainder of the buffer is filled from the start of page `index + 1` when that
page exists.  (In particular, when the first page is unmapped the whole buffer
is filled from the start of the next page, exactly as the source's
`count`-based logic does.)  The result is the little-endian recomposition. -/
def getScalarVal (L : Nat) (m : Mem) (address : Nat) : Nat :=
  let pageIndex := address / PAGE_SIZE
  let pageAddress := address % PAGE_SIZE
  let count := match m pageIndex with
    | some _ => min L (PAGE_SIZE - pageAddress)
    | none => 0
  let dat : Nat → Nat := fun i =>
    if i < count then ((m pageIndex).getD zeroPage) (pageAddress + i)
    else
      match m (pageIndex + 1) with
      | some p => p (i - count)
      | none => 0
  (Finset.range L).sum (fun i => dat i * 2 ^ (8 * i))

/-- The scalar getters only ever return `Ok`. -/
def getScalar (L : Nat) (m : Mem) (address : Nat) : MemoryResult Nat :=
  .ok (getScalarVal L m address)

/-- The scalar setters (`set_halfword` / `set_word` / `set_doubleword` with
`L` = 2 / 4 / 8): write `min L (PAGE_SIZE - page_address)` bytes into the
first page (allocating it if needed) and, when the value crosses the page
boundary, the remaining bytes at the start of page `index + 1`. -/
def setScalar (L : Nat) (m : Mem) (address value : Nat) : MemoryResult Mem :=
  let pageIndex := address / PAGE_SIZE
  let pageAddress := address % PAGE_SIZE
  let datLen := min L (PAGE_SIZE - pageAddress)
  (pageOrAlloc m pageIndex).bind fun pageOne =>
    let m1 := mupd m pageIndex (pwrite pageOne pageAddress (leByte value) datLen)
    if datLen < L then
      (pageOrAlloc m1 (pageIndex + 1)).bind fun pageTwo =>
        .ok (mupd m1 (pageIndex + 1) (pwrite pageTwo 0 (fun j => leByte value (datLen + j)) (L - datLen)))
    else
      .ok m1

/-- `Memory::get_halfword`. -/
def get_halfword (m : Mem) (address : Nat) : MemoryResult Nat := getScalar 2 m address

/-- `Memory::set_halfword`. -/
def set_halfword (m : Mem) (address value : Nat) : MemoryResult Mem := setScalar 2 m address value

/-- `Memory::get_word`. -/
def get_word (m : Mem) (address : Nat) : MemoryResult Nat := getScalar 4 m address

/-- `Memory::set_word`. -/
def set_word (m : Mem) (address value : Nat) : MemoryResult Mem := setScalar 4 m address value

/-- `Memory::get_doubleword`. -/
def get_doubleword (m : Mem) (address : Nat) : MemoryResult Nat := getScalar 8 m address

/-- `Memory::set_doubleword`. -/
def set_doubleword (m : Mem) (address value : Nat) : MemoryResult Mem := setScalar 8 m address value

/-- `Memory::read_memory_range`, written with the remaining length as
structural fuel (each loop iteration reads at least one byte, so the
remaining length strictly decreases).  It fails with `PageNotFound` the
moment it would read from an unmapped page. -/
def read_memory_range (m : Mem) : Nat → Nat → MemoryResult (List Nat)
  | _, 0 => .ok []
  | address, len + 1 =>
    let pageIndex := address / PAGE_SIZE
    let pageAddress := address % PAGE_SIZE
    match m pageIndex with
    | none => .error (.PageNotFound pageIndex)
    | some page =>
      let readLen := min (len + 1) (PAGE_SIZE - pageAddress)
      match read_memory_range m ((address + readLen) % W64) (len + 1 - readLen) with
      | .error e => .error e
      | .ok rest => .ok ((List.range readLen).map (fun i => page (pageAddress + i)) ++ rest)
decreasing_by
  have hpa : address % PAGE_SIZE < PAGE_SIZE := Nat.mod_lt _ (by norm_num [PAGE_SIZE])
  simp only [PAGE_SIZE] at *
  omega

/-! ## Architectural register aliases (`brisc-isa`, `arch.rs`). -/

/-- `REG_ZERO`. -/
def REG_ZERO : Nat := 0

/-- `REG_RA`. -/
def REG_RA : Nat := 1

/-- `REG_SP`. -/
def REG_SP : Nat := 2

/-- `REG_A0`. -/
def REG_A0 : Nat := 10

/-- `REG_A7`. -/
def REG_A7 : Nat := 17

/-- `SHIFT_MASK` for XLEN = 64. -/
def SHIFT_MASK : Nat := 0x3F

/-! ## Instruction formats (`brisc-isa`, `instructions/{r,i,s,b,u,j}_type.rs`). -/

/-- Decode error of the ISA crate (`InstructionDecodeError`). -/
inductive InstructionDecodeError where
  | InvalidOpcode (opcode : Nat)
  | InvalidFunction (q_a : Nat) (q_b : Nat)
deriving DecidableEq

/-- A RISC-V R-Type instruction. -/
structure RType where
  rd : Nat := 0
  funct3 : Nat := 0
  rs1 : Nat := 0
  rs2 : Nat := 0
  funct7 : Nat := 0
deriving DecidableEq

/-- `RType::decode`. -/
def RType.decode (instruction : Nat) : RType :=
  { rd := bitsOf instruction 7 12
    funct3 := bitsOf instruction 12 15
    rs1 := bitsOf instruction 15 20
    rs2 := bitsOf instruction 20 25
    funct7 := bitsOf instruction 25 32 }

/-- A RISC-V I-Type instruction. -/
structure IType where
  rd : Nat := 0
  funct3 : Nat := 0
  rs1 : Nat := 0
  imm : Nat := 0
deriving DecidableEq

/-- `IType::decode`. -/
def IType.decode (instruction : Nat) : IType :=
  { rd := bitsOf instruction 7 12
    funct3 := bitsOf instruction 12 15
    rs1 := bitsOf instruction 15 20
    imm := sign_extend (bitsOf instruction 20 32) 11 }

/-- A RISC-V S-Type instruction. -/
structure SType where
  funct3 : Nat := 0
  rs1 : Nat := 0
  rs2 : Nat := 0
  imm : Nat := 0
deriving DecidableEq

/-- `SType::decode`. -/
def SType.decode (instruction : Nat) : SType :=
  { funct3 := bitsOf instruction 12 15
    rs1 := bitsOf instruction 15 20
    rs2 := bitsOf instruction 20 25
    imm := sign_extend (twiddle instruction [(25, 32), (7, 12)]) 11 }

/-- A RISC-V B-Type instruction. -/
structure BType where
  funct3 : Nat := 0
  rs1 : Nat := 0
  rs2 : Nat := 0
  imm : Nat := 0
deriving DecidableEq

/-- `BType::decode`. -/
def BType.decode (instruction : Nat) : BType :=
  { funct3 := bitsOf instruction 12 15
    rs1 := bitsOf instruction 15 20
    rs2 := bitsOf instruction 20 25
    imm := sign_extend (twiddle instruction [(31, 32), (7, 8), (25, 31), (8, 12)] <<< 1) 12 }

/-- A RISC-V U-Type instruction. -/
structure UType where
  rd : Nat := 0
  imm : Nat := 0
deriving DecidableEq

/-- `UType::decode`. -/
def UType.decode (instruction : Nat) : UType :=
  { rd := bitsOf instruction 7 12
    imm := sign_extend (bitsOf instruction 12 32 <<< 12) 31 }

/-- A RISC-V J-Type instruction. -/
structure JType where
  rd : Nat := 0
  imm : Nat := 0
deriving DecidableEq

/-- `JType::decode`. -/
def JType.decode (instruction : Nat) : JType :=
  { rd := bitsOf instruction 7 12
    imm := sign_extend (twiddle instruction [(31, 32), (12, 20), (20, 21), (21, 31)] <<< 1) 20 }

/-! ## Function classifiers (`brisc-isa`, `functions.rs`). -/

/-- Functions for integer register-register instructions. -/
inductive RegisterArithmeticFunction where
  | Add | Sub | Xor | Or | And | Sll | Srl | Sra | Slt | Sltu
  | Mul | Mulh | Mulhsu | Mulhu | Div | Divu | Rem | Remu
deriving DecidableEq

/-- `RegisterArithmeticFunction::try_from(&RType)`. -/
def RegisterArithmeticFunction.tryFrom (value : RType) :
    Except InstructionDecodeError RegisterArithmeticFunction :=
  if value.funct3 = 0x00 ∧ value.funct7 = 0x00 then .ok .Add
  else if value.funct3 = 0x00 ∧ value.funct7 = 0x20 then .ok .Sub
  else if value.funct3 = 0x04 ∧ value.funct7 = 0x00 then .ok .Xor
  else if value.funct3 = 0x06 ∧ value.funct7 = 0x00 then .ok .Or
  else if value.funct3 = 0x07 ∧ value.funct7 = 0x00 then .ok .And
  else if value.funct3 = 0x01 ∧ value.funct7 = 0x00 then .ok .Sll
  else if value.funct3 = 0x05 ∧ value.funct7 = 0x00 then .ok .Srl
  else if value.funct3 = 0x05 ∧ value.funct7 = 0x20 then .ok .Sra
  else if value.funct3 = 0x02 ∧ value.funct7 = 0x00 then .ok .Slt
  else if value.funct3 = 0x03 ∧ value.funct7 = 0x00 then .ok .Sltu
  else if value.funct3 = 0x00 ∧ value.funct7 = 0x01 then .ok .Mul
  else if value.funct3 = 0x01 ∧ value.funct7 = 0x01 then .ok .Mulh
  else if value.funct3 = 0x02 ∧ value.funct7 = 0x01 then .ok .Mulhsu
  else if value.funct3 = 0x03 ∧ value.funct7 = 0x01 then .ok .Mulhu
  else if value.funct3 = 0x04 ∧ value.funct7 = 0x01 then .ok .Div
  else if value.funct3 = 0x05 ∧ value.funct7 = 0x01 then .ok .Divu
  else if value.funct3 = 0x06 ∧ value.funct7 = 0x01 then .ok .Rem
  else if value.funct3 = 0x07 ∧ value.funct7 = 0x01 then .ok .Remu
  else .error (.InvalidFunction value.funct3 value.funct7)

/-- Functions for integer register-register word (RV64) instructions. -/
inductive RegisterArithmeticWordFunction where
  | Addw | Subw | Sllw | Srlw | Sraw | Mulw | Divw | Divuw | Remw | Remuw
deriving DecidableEq

/-- `RegisterArithmeticWordFunction::try_from(&RType)`. -/
def RegisterArithmeticWordFunction.tryFrom (value : RType) :
    Except InstructionDecodeError RegisterArithmeticWordFunction :=
  if value.funct3 = 0x00 ∧ value.funct7 = 0x00 then .ok .Addw
  else if value.funct3 = 0x00 ∧ value.funct7 = 0x20 then .ok .Subw
  else if value.funct3 = 0x01 ∧ value.funct7 = 0x00 then .ok .Sllw
  else if value.funct3 = 0x05 ∧ value.funct7 = 0x00 then .ok .Srlw
  else if value.funct3 = 0x05 ∧ value.funct7 = 0x20 then .ok .Sraw
  else if value.funct3 = 0x00 ∧ value.funct7 = 0x01 then .ok .Mulw
  else if value.funct3 = 0x04 ∧ value.funct7 = 0x01 then .ok .Divw
  else if value.funct3 = 0x05 ∧ value.funct7 = 0x01 then .ok .Divuw
  else if value.funct3 = 0x06 ∧ value.funct7 = 0x01 then .ok .Remw
  else if value.funct3 = 0x07 ∧ value.funct7 = 0x01 then .ok .Remuw
  else .error (.InvalidFunction value.funct3 value.funct7)

/-- Functions for integer register-immediate instructions. -/
inductive ImmediateArithmeticFunction where
  | Addi | Xori | Ori | Andi | Slli | Srli | Srai | Slti | Sltiu
deriving DecidableEq

/-- `ImmediateArithmeticFunction::try_from(&IType)` in the `64-bit`
configuration (the shift guards inspect bits `[6, 12)` of the immediate). -/
def ImmediateArithmeticFunction.tryFrom (value : IType) :
    Except InstructionDecodeError ImmediateArithmeticFunction :=
  if value.funct3 = 0x00 then .ok .Addi
  else if value.funct3 = 0x01 then .ok .Slli
  else if value.funct3 = 0x02 then .ok .Slti
  else if value.funct3 = 0x03 then .ok .Sltiu
  else if value.funct3 = 0x04 then .ok .Xori
  else if value.funct3 = 0x05 ∧ bitsOf value.imm 6 12 = 0 then .ok .Srli
  else if value.funct3 = 0x05 ∧ bitsOf value.imm 6 12 = 0x10 then .ok .Srai
  else if value.funct3 = 0x06 then .ok .Ori
  else if value.funct3 = 0x07 then .ok .Andi
  else .error (.InvalidFunction value.funct3 (bitsOf value.imm 5 12))

/-- Functions for integer register-immediate word (RV64) instructions. -/
inductive ImmediateArithmeticWordFunction where
  | Addiw | Slliw | Srliw | Sraiw
deriving DecidableEq

/-- `ImmediateArithmeticWordFunction::try_from(&IType)`. -/
def ImmediateArithmeticWordFunction.tryFrom (value : IType) :
    Except InstructionDecodeError ImmediateArithmeticWordFunction :=
  if value.funct3 = 0x00 then .ok .Addiw
  else if value.funct3 = 0x01 ∧ bitsOf value.imm 5 12 = 0 then .ok .Slliw
  else if value.funct3 = 0x05 ∧ bitsOf value.imm 5 12 = 0 then .ok .Srliw
  else if value.funct3 = 0x05 ∧ bitsOf value.imm 5 12 = 0x20 then .ok .Sraiw
  else .error (.InvalidFunction value.funct3 (bitsOf value.imm 5 12))

/-- Functions for load instructions. -/
inductive LoadFunction where
  | Lb | Lh | Lw | Lbu | Lhu | Lwu | Ld
deriving DecidableEq

/-- `LoadFunction::try_from(&IType)`. -/
def LoadFunction.tryFrom (value : IType) :
    Except InstructionDecodeError LoadFunction :=
  if value.funct3 = 0x00 then .ok .Lb
  else if value.funct3 = 0x01 then .ok .Lh
  else if value.funct3 = 0x02 then .ok .Lw
  else if value.funct3 = 0x04 then .ok .Lbu
  else if value.funct3 = 0x05 then .ok .Lhu
  else if value.funct3 = 0x06 then .ok .Lwu
  else if value.funct3 = 0x03 then .ok .Ld
  else .error (.InvalidFunction value.funct3 0)

/-- Functions for store instructions. -/
inductive StoreFunction where
  | Sb | Sh | Sw | Sd
deriving DecidableEq

/-- `StoreFunction::try_from(&SType)`. -/
def StoreFunction.tryFrom (value : SType) :
    Except InstructionDecodeError StoreFunction :=
  if value.funct3 = 0x00 then .ok .Sb
  else if value.funct3 = 0x01 then .ok .Sh
  else if value.funct3 = 0x02 then .ok .Sw
  else if value.funct3 = 0x03 then .ok .Sd
  else .error (.InvalidFunction value.funct3 0)

/-- Functions for branch instructions. -/
inductive BranchFunction where
  | Beq | Bne | Blt | Bge | Bltu | Bgeu
deriving DecidableEq

/-- `BranchFunction::try_from(&BType)`. -/
def BranchFunction.tryFrom (value : BType) :
    Except InstructionDecodeError BranchFunction :=
  if value.funct3 = 0x00 then .ok .Beq
  else if value.funct3 = 0x01 then .ok .Bne
  else if value.funct3 = 0x04 then .ok .Blt
  else if value.funct3 = 0x05 then .ok .Bge
  else if value.funct3 = 0x06 then .ok .Bltu
  else if value.funct3 = 0x07 then .ok .Bgeu
  else .error (.InvalidFunction value.funct3 0)

/-- Functions for the environment instruction. -/
inductive EnvironmentFunction where
  | Ecall | Ebreak
deriving DecidableEq

/-- `EnvironmentFunction::try_from(&IType)`: `funct3 = 0` with a zero
immediate is `Ecall`; every other combination is mapped to `Ebreak` (the
`InvalidFunction` arm is commented out in the source). -/
def EnvironmentFunction.tryFrom (value : IType) :
    Except InstructionDecodeError EnvironmentFunction :=
  if value.funct3 = 0x00 ∧ value.imm = 0 then .ok .Ecall
  else .ok .Ebreak

/-- Functions for the `a` extension. -/
inductive AmoFunction where
  | Lr | Sc | Amoswap | Amoadd | Amoxor | Amoand | Amoor
  | Amomin | Amomax | Amominu | Amomaxu
deriving DecidableEq

/-- `AmoFunction::try_from(&RType)`: dispatch on `funct7[2..7)`. -/
def AmoFunction.tryFrom (value : RType) :
    Except InstructionDecodeError AmoFunction :=
  let afunct5 := bitsOf value.funct7 2 7
  if afunct5 = 0b00010 then .ok .Lr
  else if afunct5 = 0b00011 then .ok .Sc
  else if afunct5 = 0b00001 then .ok .Amoswap
  else if afunct5 = 0b00000 then .ok .Amoadd
  else if afunct5 = 0b00100 then .ok .Amoxor
  else if afunct5 = 0b01100 then .ok .Amoand
  else if afunct5 = 0b01000 then .ok .Amoor
  else if afunct5 = 0b10000 then .ok .Amomin
  else if afunct5 = 0b10100 then .ok .Amomax
  else if afunct5 = 0b11000 then .ok .Amominu
  else if afunct5 = 0b11100 then .ok .Amomaxu
  else .error (.InvalidFunction afunct5 0)

/-! ## Instructions (`brisc-isa`, `instructions.rs`). -/

/-- RISC-V instructions supported by `brisc` (all features enabled). -/
inductive Instruction where
  | MemoryLoad (it : IType) (f : LoadFunction)
  | MemoryStore (st : SType) (f : StoreFunction)
  | Branch (bt : BType) (f : BranchFunction)
  | ImmediateArithmetic (it : IType) (f : ImmediateArithmeticFunction)
  | RegisterArithmetic (rt : RType) (f : RegisterArithmeticFunction)
  | Lui (ut : UType)
  | Auipc (ut : UType)
  | Jal (jt : JType)
  | Jalr (it : IType)
  | Environment (it : IType) (f : EnvironmentFunction)
  | Fence
  | ImmediateArithmeticWord (it : IType) (f : ImmediateArithmeticWordFunction)
  | RegisterArithmeticWord (rt : RType) (f : RegisterArithmeticWordFunction)
  | Amo (rt : RType) (f : AmoFunction)
deriving DecidableEq

/-- `Instruction::rs1`. -/
def Instruction.rs1 : Instruction → Option Nat
  | .MemoryLoad it _ => some it.rs1
  | .MemoryStore st _ => some st.rs1
  | .Branch bt _ => some bt.rs1
  | .ImmediateArithmetic it _ => some it.rs1
  | .RegisterArithmetic rt _ => some rt.rs1
  | .Jalr it => some it.rs1
  | .Environment it _ => some it.rs1
  | .ImmediateArithmeticWord it _ => some it.rs1
  | .RegisterArithmeticWord rt _ => some rt.rs1
  | .Amo rt _ => some rt.rs1
  | _ => none

/-- `Instruction::rs2`. -/
def Instruction.rs2 : Instruction → Option Nat
  | .MemoryStore st _ => some st.rs2
  | .Branch bt _ => some bt.rs2
  | .RegisterArithmetic rt _ => some rt.rs2
  | .RegisterArithmeticWord rt _ => some rt.rs2
  | .Amo rt _ => some rt.rs2
  | _ => none

/-- `Instruction::rd`. -/
def Instruction.rd : Instruction → Option Nat
  | .MemoryLoad it _ => some it.rd
  | .ImmediateArithmetic it _ => some it.rd
  | .RegisterArithmetic rt _ => some rt.rd
  | .Lui ut => some ut.rd
  | .Auipc ut => some ut.rd
  | .Jal jt => some jt.rd
  | .Jalr it => some it.rd
  | .Environment it _ => some it.rd
  | .ImmediateArithmeticWord it _ => some it.rd
  | .RegisterArithmeticWord rt _ => some rt.rd
  | .Amo rt _ => some rt.rd
  | _ => none

/-- `Instruction::immediate`. -/
def Instruction.immediate : Instruction → Option Nat
  | .MemoryLoad it _ => some it.imm
  | .MemoryStore st _ => some st.imm
  | .Branch bt _ => some bt.imm
  | .ImmediateArithmetic it _ => some it.imm
  | .Lui ut => some ut.imm
  | .Auipc ut => some ut.imm
  | .Jal jt => some jt.imm
  | .Jalr it => some it.imm
  | .Environment it _ => some it.imm
  | .ImmediateArithmeticWord it _ => some it.imm
  | _ => none

/-- `Instruction::is_system_call`. -/
def Instruction.is_system_call : Instruction → Bool
  | .Environment _ .Ecall => true
  | _ => false

/-! ## Compressed instructions (`brisc-isa`, `instructions/rvc/types.rs` and
`instructions/rvc/mod.rs`), in the `64-bit` configuration. -/

/-- `C_REG_OFFSET`. -/
def C_REG_OFFSET : Nat := 8

/-- `is_compressed`: the two least significant bits are not both set. -/
def is_compressed (instr : Nat) : Bool := instr % 4 != 3

/-- `map_compressed_reg_idx`. -/
def map_compressed_reg_idx (reg : Nat) : Nat := reg + C_REG_OFFSET

/-- A RISC-V CR-Type instruction. -/
structure CRType where
  rs1_rd : Nat := 0
  rs2 : Nat := 0
  funct4 : Nat := 0
deriving DecidableEq

/-- `CRType::decode`. -/
def CRType.decode (instruction : Nat) : CRType :=
  { rs1_rd := bitsOf instruction 7 12
    rs2 := bitsOf instruction 2 7
    funct4 := bitsOf instruction 12 16 }

/-- A RISC-V CI-Type instruction. -/
structure CIType where
  rs1_rd : Nat := 0
  funct3 : Nat := 0
  imm : Nat := 0
deriving DecidableEq

/-- `CIType::decode`. -/
def CIType.decode (instruction : Nat) : CIType :=
  { rs1_rd := bitsOf instruction 7 12
    funct3 := bitsOf instruction 13 16
    imm := twiddle instruction [(12, 13), (2, 7)] }

/-- A RISC-V CSS-Type instruction. -/
structure CSSType where
  rs2 : Nat := 0
  funct3 : Nat := 0
  imm : Nat := 0
deriving DecidableEq

/-- `CSSType::decode`. -/
def CSSType.decode (instruction : Nat) : CSSType :=
  { rs2 := bitsOf instruction 2 7
    funct3 := bitsOf instruction 13 16
    imm := bitsOf instruction 7 13 }

/-- A RISC-V CIW-Type instruction. -/
structure CIWType where
  rd : Nat := 0
  funct3 : Nat := 0
  imm : Nat := 0
deriving DecidableEq

/-- `CIWType::decode`. -/
def CIWType.decode (instruction : Nat) : CIWType :=
  { rd := bitsOf instruction 2 5
    funct3 := bitsOf instruction 13 16
    imm := bitsOf instruction 5 13 }

/-- A RISC-V CL-Type instruction. -/
structure CLType where
  rd : Nat := 0
  rs1 : Nat := 0
  funct3 : Nat := 0
  imm : Nat := 0
deriving DecidableEq

/-- `CLType::decode`. -/
def CLType.decode (instruction : Nat) : CLType :=
  { rd := bitsOf instruction 2 5
    rs1 := bitsOf instruction 7 10
    funct3 := bitsOf instruction 13 16
    imm := twiddle instruction [(10, 13), (5, 7)] }

/-- A RISC-V CS-Type instruction. -/
structure CSType where
  rs1 : Nat := 0
  rs2 : Nat := 0
  funct3 : Nat := 0
  imm : Nat := 0
deriving DecidableEq

/-- `CSType::decode`. -/
def CSType.decode (instruction : Nat) : CSType :=
  { rs1 := bitsOf instruction 7 10
    rs2 := bitsOf instruction 2 5
    funct3 := bitsOf instruction 13 16
    imm := twiddle instruction [(10, 13), (5, 7)] }

/-- A RISC-V CB-Type instruction. -/
structure CBType where
  rs1 : Nat := 0
  funct3 : Nat := 0
  offset : Nat := 0
deriving DecidableEq

/-- `CBType::decode`. -/
def CBType.decode (instruction : Nat) : CBType :=
  { rs1 := bitsOf instruction 7 10
    funct3 := bitsOf instruction 13 16
    offset := twiddle instruction [(10, 13), (2, 7)] }

/-- A RISC-V CJ-Type instruction. -/
structure CJType where
  funct3 : Nat := 0
  target : Nat := 0
deriving DecidableEq

/-- `CJType::decode`. -/
def CJType.decode (instruction : Nat) : CJType :=
  { funct3 := bitsOf instruction 13 16
    target := bitsOf instruction 2 13 }

/-- A RISC-V C0 quadrant instruction (`64-bit` configuration). -/
inductive C0 where
  | CAddi4spn (ciw : CIWType)
  | CLw (cl : CLType)
  | CSw (cs : CSType)
  | CLd (cl : CLType)
  | CSd (cs : CSType)
deriving DecidableEq

/-- `C0::decode`. -/
def C0.decode (instruction : Nat) : Except InstructionDecodeError C0 :=
  let funct3 := bitsOf instruction 13 16
  if funct3 = 0b000 then .ok (.CAddi4spn (CIWType.decode instruction))
  else if funct3 = 0b010 then .ok (.CLw (CLType.decode instruction))
  else if funct3 = 0b110 then .ok (.CSw (CSType.decode instruction))
  else if funct3 = 0b011 then .ok (.CLd (CLType.decode instruction))
  else if funct3 = 0b111 then .ok (.CSd (CSType.decode instruction))
  else .error (.InvalidFunction funct3 0)

/-- `C0::expand`. -/
def C0.expand : C0 → Instruction
  | .CAddi4spn ciw =>
    let nzuimm := twiddle ciw.imm [(2, 4), (4, 8), (0, 1), (1, 2)] <<< 2
    .ImmediateArithmetic { rd := map_compressed_reg_idx ciw.rd, funct3 := 0, rs1 := REG_SP, imm := nzuimm } .Addi
  | .CLw cl =>
    .MemoryLoad
      { rd := map_compressed_reg_idx cl.rd, funct3 := 0b010,
        rs1 := map_compressed_reg_idx cl.rs1,
        imm := twiddle cl.imm [(0, 1), (2, 5), (1, 2)] <<< 2 } .Lw
  | .CSw cs =>
    .MemoryStore
      { funct3 := 0b010, rs1 := map_compressed_reg_idx cs.rs1,
        rs2 := map_compressed_reg_idx cs.rs2,
        imm := twiddle cs.imm [(0, 1), (2, 5), (1, 2)] <<< 2 } .Sw
  | .CLd cl =>
    .MemoryLoad
      { rd := map_compressed_reg_idx cl.rd, funct3 := cl.funct3,
        rs1 := map_compressed_reg_idx cl.rs1,
        imm := twiddle cl.imm [(0, 2), (2, 5)] <<< 3 } .Ld
  | .CSd cs =>
    .MemoryStore
      { funct3 := cs.funct3, rs1 := map_compressed_reg_idx cs.rs1,
        rs2 := map_compressed_reg_idx cs.rs2,
        imm := twiddle cs.imm [(0, 2), (2, 5)] <<< 3 } .Sd

/-- Sub-functions of the C1 `100` funct3 slot (`64-bit` configuration). -/
inductive C1SubFunct where
  | CSrli (cb : CBType)
  | CSrai (cb : CBType)
  | CAndi (cb : CBType)
  | CSub (cs : CSType)
  | CXor (cs : CSType)
  | COr (cs : CSType)
  | CAnd (cs : CSType)
  | CSubw (cs : CSType)
  | CAddw (cs : CSType)
deriving DecidableEq

/-- `C1SubFunct::decode`. -/
def C1SubFunct.decode (instruction : Nat) : Except InstructionDecodeError C1SubFunct :=
  let funct6_low := bitsOf instruction 10 12
  if funct6_low = 0b00 then .ok (.CSrli (CBType.decode instruction))
  else if funct6_low = 0b01 then .ok (.CSrai (CBType.decode instruction))
  else if funct6_low = 0b10 then .ok (.CAndi (CBType.decode instruction))
  else if funct6_low = 0b11 then
    let funct2 := bitsOf instruction 5 7
    let arch_sel := bitsOf instruction 12 13
    if funct2 = 0b00 ∧ arch_sel = 0 then .ok (.CSub (CSType.decode instruction))
    else if funct2 = 0b01 ∧ arch_sel = 0 then .ok (.CXor (CSType.decode instruction))
    else if funct2 = 0b10 then .ok (.COr (CSType.decode instruction))
    else if funct2 = 0b11 then .ok (.CAnd (CSType.decode instruction))
    else if funct2 = 0b00 ∧ arch_sel = 1 then .ok (.CSubw (CSType.decode instruction))
    else if funct2 = 0b01 ∧ arch_sel = 1 then .ok (.CAddw (CSType.decode instruction))
    else .error (.InvalidFunction funct2 arch_sel)
  else .error (.InvalidFunction funct6_low 0)

/-- `C1SubFunct::map`. -/
def C1SubFunct.map : C1SubFunct → Instruction
  | .CSrli cb =>
    .ImmediateArithmetic
      { rd := map_compressed_reg_idx cb.rs1, funct3 := 0b101,
        rs1 := map_compressed_reg_idx cb.rs1,
        imm := twiddle cb.offset [(7, 8), (0, 5)] } .Srli
  | .CSrai cb =>
    .ImmediateArithmetic
      { rd := map_compressed_reg_idx cb.rs1, funct3 := 0b101,
        rs1 := map_compressed_reg_idx cb.rs1,
        imm := twiddle cb.offset [(7, 8), (0, 5)] ||| (0x20 <<< 5) } .Srai
  | .CAndi cb =>
    .ImmediateArithmetic
      { rd := map_compressed_reg_idx cb.rs1, funct3 := 0b111,
        rs1 := map_compressed_reg_idx cb.rs1,
        imm := sign_extend (twiddle cb.offset [(7, 8), (0, 5)]) 5 } .Andi
  | .CSub cs =>
    .RegisterArithmetic
      { rd := map_compressed_reg_idx cs.rs1, funct3 := 0b000,
        rs1 := map_compressed_reg_idx cs.rs1, rs2 := map_compressed_reg_idx cs.rs2,
        funct7 := 0x20 } .Sub
  | .CXor cs =>
    .RegisterArithmetic
      { rd := map_compressed_reg_idx cs.rs1, funct3 := 0b100,
        rs1 := map_compressed_reg_idx cs.rs1, rs2 := map_compressed_reg_idx cs.rs2,
        funct7 := 0 } .Xor
  | .COr cs =>
    .RegisterArithmetic
      { rd := map_compressed_reg_idx cs.rs1, funct3 := 0b110,
        rs1 := map_compressed_reg_idx cs.rs1, rs2 := map_compressed_reg_idx cs.rs2,
        funct7 := 0 } .Or
  | .CAnd cs =>
    .RegisterArithmetic
      { rd := map_compressed_reg_idx cs.rs1, funct3 := 0b111,
        rs1 := map_compressed_reg_idx cs.rs1, rs2 := map_compressed_reg_idx cs.rs2,
        funct7 := 0 } .And
  | .CSubw cs =>
    .RegisterArithmeticWord
      { rd := map_compressed_reg_idx cs.rs1, funct3 := 0b000,
        rs1 := map_compressed_reg_idx cs.rs1, rs2 := map_compressed_reg_idx cs.rs2,
        funct7 := 0x20 } .Subw
  | .CAddw cs =>
    .RegisterArithmeticWord
      { rd := map_compressed_reg_idx cs.rs1, funct3 := 0b000,
        rs1 := map_compressed_reg_idx cs.rs1, rs2 := map_compressed_reg_idx cs.rs2,
        funct7 := 0 } .Addw

/-- A RISC-V C1 quadrant instruction (`64-bit` configuration: the `001` slot
is `C.ADDIW`, not `C.JAL`). -/
inductive C1 where
  | CAddi (ci : CIType)
  | CJal (cj : CJType)
  | CLi (ci : CIType)
  | CAddi16sp (ci : CIType)
  | CLui (ci : CIType)
  | SubFunct (sf : C1SubFunct)
  | CJ (cj : CJType)
  | CBeqz (cb : CBType)
  | CBnez (cb : CBType)
  | CAddiw (ci : CIType)
deriving DecidableEq

/-- `C1::decode` (`64-bit` configuration). -/
def C1.decode (instruction : Nat) : Except InstructionDecodeError C1 :=
  let funct3 := bitsOf instruction 13 16
  let rs1_rd := bitsOf instruction 7 12
  if funct3 = 0b000 then .ok (.CAddi (CIType.decode instruction))
  else if funct3 = 0b001 then
    if rs1_rd = 0 then .error (.InvalidFunction funct3 0)
    else .ok (.CAddiw (CIType.decode instruction))
  else if funct3 = 0b010 then .ok (.CLi (CIType.decode instruction))
  else if funct3 = 0b011 then
    if rs1_rd = 2 then .ok (.CAddi16sp (CIType.decode instruction))
    else if rs1_rd ≠ 0 then .ok (.CLui (CIType.decode instruction))
    else .error (.InvalidFunction funct3 0)
  else if funct3 = 0b100 then (C1SubFunct.decode instruction).map .SubFunct
  else if funct3 = 0b101 then .ok (.CJ (CJType.decode instruction))
  else if funct3 = 0b110 then .ok (.CBeqz (CBType.decode instruction))
  else if funct3 = 0b111 then .ok (.CBnez (CBType.decode instruction))
  else .error (.InvalidFunction funct3 0)

/-- The `C.JAL` / `C.J` target bit splice. -/
def cjTarget (t : Nat) : Nat :=
  twiddle t [(10, 11), (6, 7), (7, 9), (4, 5), (5, 6), (0, 1), (9, 10), (1, 4)] <<< 1

/-- `C1::expand`. -/
def C1.expand : C1 → Instruction
  | .CAddi ci =>
    .ImmediateArithmetic
      { rd := ci.rs1_rd, funct3 := 0, rs1 := ci.rs1_rd,
        imm := sign_extend ci.imm 5 } .Addi
  | .CJal cj => .Jal { rd := REG_RA, imm := sign_extend (cjTarget cj.target) 11 }
  | .CLi ci =>
    .ImmediateArithmetic
      { rd := ci.rs1_rd, funct3 := 0, rs1 := REG_ZERO,
        imm := sign_extend ci.imm 5 } .Addi
  | .CAddi16sp ci =>
    let nzimm := twiddle ci.imm [(5, 6), (1, 3), (3, 4), (0, 1), (4, 5)] <<< 4
    .ImmediateArithmetic
      { rd := REG_SP, funct3 := 0, rs1 := REG_SP, imm := sign_extend nzimm 9 } .Addi
  | .CLui ci => .Lui { rd := ci.rs1_rd, imm := sign_extend (ci.imm <<< 12) 17 }
  | .SubFunct sf => sf.map
  | .CJ cj => .Jal { rd := REG_ZERO, imm := sign_extend (cjTarget cj.target) 11 }
  | .CBeqz cb =>
    .Branch
      { funct3 := 0, rs1 := map_compressed_reg_idx cb.rs1, rs2 := REG_ZERO,
        imm := sign_extend (twiddle cb.offset [(7, 8), (3, 5), (0, 1), (5, 7), (1, 3)] <<< 1) 8 } .Beq
  | .CBnez cb =>
    .Branch
      { funct3 := 1, rs1 := map_compressed_reg_idx cb.rs1, rs2 := REG_ZERO,
        imm := sign_extend (twiddle cb.offset [(7, 8), (3, 5), (0, 1), (5, 7), (1, 3)] <<< 1) 8 } .Bne
  | .CAddiw ci =>
    .ImmediateArithmeticWord
      { rd := ci.rs1_rd, funct3 := 0, rs1 := ci.rs1_rd,
        imm := sign_extend ci.imm 5 } .Addiw

/-- Sub-functions of the C2 `100` funct3 slot. -/
inductive C2SubFunct where
  | CJr (cr : CRType)
  | CMv (cr : CRType)
  | CEBreak
  | CJalr (cr : CRType)
  | CAdd (cr : CRType)
deriving DecidableEq

/-- `C2SubFunct::decode`. -/
def C2SubFunct.decode (instruction : Nat) : Except InstructionDecodeError C2SubFunct :=
  let sel := bitsOf instruction 12 13
  let cr := CRType.decode instruction
  if sel = 0 then
    if cr.rs2 = 0 then .ok (.CJr cr) else .ok (.CMv cr)
  else if sel = 1 then
    if cr.rs2 = 0 ∧ cr.rs1_rd = 0 then .ok .CEBreak
    else if cr.rs2 = 0 ∧ cr.rs1_rd ≠ 0 then .ok (.CJalr cr)
    else if cr.rs2 ≠ 0 ∧ cr.rs1_rd ≠ 0 then .ok (.CAdd cr)
    else .error (.InvalidFunction sel 0)
  else .error (.InvalidFunction sel 0)

/-- `C2SubFunct::map`. -/
def C2SubFunct.map : C2SubFunct → Instruction
  | .CJr cr => .Jalr { rd := REG_ZERO, funct3 := 0, rs1 := cr.rs1_rd, imm := 0 }
  | .CMv cr =>
    .RegisterArithmetic
      { rd := cr.rs1_rd, funct3 := 0, rs1 := REG_ZERO, rs2 := cr.rs2, funct7 := 0 } .Add
  | .CJalr cr => .Jalr { rd := REG_RA, funct3 := 0, rs1 := cr.rs1_rd, imm := 0 }
  | .CAdd cr =>
    .RegisterArithmetic
      { rd := cr.rs1_rd, funct3 := 0, rs1 := cr.rs1_rd, rs2 := cr.rs2, funct7 := 0 } .Add
  | .CEBreak => .Environment {} .Ebreak

/-- A RISC-V C2 quadrant instruction (`64-bit` configuration). -/
inductive C2 where
  | CSlli (ci : CIType)
  | CLwsp (ci : CIType)
  | CSwsp (css : CSSType)
  | SubFunct (sf : C2SubFunct)
  | CLdsp (ci : CIType)
  | CSdsp (css : CSSType)
deriving DecidableEq

/-- `C2::decode` (`64-bit` configuration). -/
def C2.decode (instruction : Nat) : Except InstructionDecodeError C2 :=
  let funct3 := bitsOf instruction 13 16
  let rd := bitsOf instruction 7 12
  if funct3 = 0b000 ∧ rd ≠ 0 then .ok (.CSlli (CIType.decode instruction))
  else if funct3 = 0b010 ∧ rd ≠ 0 then .ok (.CLwsp (CIType.decode instruction))
  else if funct3 = 0b100 then (C2SubFunct.decode instruction).map .SubFunct
  else if funct3 = 0b110 then .ok (.CSwsp (CSSType.decode instruction))
  else if funct3 = 0b011 ∧ rd ≠ 0 then .ok (.CLdsp (CIType.decode instruction))
  else if funct3 = 0b111 then .ok (.CSdsp (CSSType.decode instruction))
  else .error (.InvalidFunction funct3 0)

/-- `C2::expand`. -/
def C2.expand : C2 → Instruction
  | .CSlli ci =>
    .ImmediateArithmetic
      { rd := ci.rs1_rd, funct3 := 1, rs1 := ci.rs1_rd, imm := ci.imm &&& 0x3F } .Slli
  | .CLwsp ci =>
    .MemoryLoad
      { rd := ci.rs1_rd, funct3 := 2, rs1 := REG_SP,
        imm := twiddle ci.imm [(0, 2), (2, 6)] <<< 2 } .Lw
  | .CSwsp css =>
    .MemoryStore
      { funct3 := 2, rs1 := REG_SP, rs2 := css.rs2,
        imm := twiddle css.imm [(0, 2), (2, 6)] <<< 2 } .Sw
  | .SubFunct sf => sf.map
  | .CLdsp ci =>
    .MemoryLoad
      { rd := ci.rs1_rd, funct3 := 3, rs1 := REG_SP,
        imm := twiddle ci.imm [(0, 3), (3, 6)] <<< 3 } .Ld
  | .CSdsp css =>
    .MemoryStore
      { funct3 := 3, rs1 := REG_SP, rs2 := css.rs2,
        imm := twiddle css.imm [(0, 3), (3, 6)] <<< 3 } .Sd

/-- A compressed RISC-V instruction. -/
inductive CompressedInstruction where
  | C0 (c : C0)
  | C1 (c : C1)
  | C2 (c : C2)
deriving DecidableEq

/-- `CompressedInstruction::decode`. -/
def CompressedInstruction.decode (instruction : Nat) :
    Except InstructionDecodeError CompressedInstruction :=
  let opcode := instruction % 4
  if opcode = 0b00 then (C0.decode instruction).map .C0
  else if opcode = 0b01 then (C1.decode instruction).map .C1
  else if opcode = 0b10 then (C2.decode instruction).map .C2
  else .error (.InvalidOpcode opcode)

/-- `CompressedInstruction::expand`. -/
def CompressedInstruction.expand : CompressedInstruction → Instruction
  | .C0 c => c.expand
  | .C1 c => c.expand
  | .C2 c => c.expand

/-- `Instruction::try_from(Word)` with the `c` feature enabled: compressed
halfwords are decoded and expanded; otherwise dispatch on the low 7 opcode
bits. -/
def Instruction.tryFrom (value : Nat) : Except InstructionDecodeError Instruction :=
  if is_compressed value then
    (CompressedInstruction.decode (value % 2 ^ 16)).map CompressedInstruction.expand
  else
    let opcode := value % 128
    if opcode = 0b0000011 then
      (LoadFunction.tryFrom (IType.decode value)).map (.MemoryLoad (IType.decode value))
    else if opcode = 0b0100011 then
      (StoreFunction.tryFrom (SType.decode value)).map (.MemoryStore (SType.decode value))
    else if opcode = 0b1100011 then
      (BranchFunction.tryFrom (BType.decode value)).map (.Branch (BType.decode value))
    else if opcode = 0b0010011 then
      (ImmediateArithmeticFunction.tryFrom (IType.decode value)).map
        (.ImmediateArithmetic (IType.decode value))
    else if opcode = 0b0110011 then
      (RegisterArithmeticFunction.tryFrom (RType.decode value)).map
        (.RegisterArithmetic (RType.decode value))
    else if opcode = 0b0110111 then .ok (.Lui (UType.decode value))
    else if opcode = 0b0010111 then .ok (.Auipc (UType.decode value))
    else if opcode = 0b1101111 then .ok (.Jal (JType.decode value))
    else if opcode = 0b1100111 then .ok (.Jalr (IType.decode value))
    else if opcode = 0b1110011 then
      (EnvironmentFunction.tryFrom (IType.decode value)).map
        (.Environment (IType.decode value))
    else if opcode = 0b0001111 then .ok .Fence
    else if opcode = 0b0011011 then
      (ImmediateArithmeticWordFunction.tryFrom (IType.decode value)).map
        (.ImmediateArithmeticWord (IType.decode value))
    else if opcode = 0b0111011 then
      (RegisterArithmeticWordFunction.tryFrom (RType.decode value)).map
        (.RegisterArithmeticWord (RType.decode value))
    else if opcode = 0b0101111 then
      (AmoFunction.tryFrom (RType.decode value)).map (.Amo (RType.decode value))
    else .error (.InvalidOpcode opcode)

/-! ## Pipeline state (`brisc-hw`, `pipeline/register.rs`) and errors
(`errors.rs`). -/

/-- Errors of the pipeline (`PipelineError`). -/
inductive PipelineError where
  | MissingState (field : String)
  | InstructionDecodeError (e : InstructionDecodeError)
  | MemoryError (e : MemoryError)
  | SyscallException (sysno : Nat)
  | BadAmoSize (size : Nat)
  | UnalignedAmo
deriving DecidableEq

/-- The register file: thirty-two XLEN-bit registers.  All indices the
pipeline produces are 5-bit, so a total function on `Nat` is used. -/
def RegFile : Type := Nat → Nat

/-- Point update of the register file. -/
def rupd (regs : RegFile) (i v : Nat) : RegFile :=
  fun j => if j = i then v else regs j

/-- The `PipelineRegister`.  The `reservation` field is modelled from the
spec: its declaration is not part of the snapshot's `register.rs`, but
`pipeline/memory.rs` reads and writes `p_reg.reservation`, and the spec
describes it as an optional XLEN address "persisted across cycles until
consumed or invalidated". -/
structure PipelineRegister where
  pc : Nat := 0
  registers : RegFile := fun _ => 0
  next_pc : Nat := 0
  instruction_raw : Option Nat := none
  instruction : Option Instruction := none
  rs1_value : Option Nat := none
  rs2_value : Option Nat := none
  immediate : Option Nat := none
  rd : Option Nat := none
  control_signals : Nat := 0
  alu_result : Option Nat := none
  memory : Option Nat := none
  exit : Bool := false
  exit_code : Nat := 0
  reservation : Option Nat := none

/-- `PipelineRegister::advance`:
`*self = Self { pc: self.next_pc, registers: self.registers, ..Default::default() }`.
The carry-over of `reservation` is modelled from the spec ("preserving the
register file, `exit`/`exit_code`, and the AMO reservation" — of which the
snapshot's source carries over the register file; the reservation must also
survive, since `pipeline/memory.rs` consults it one cycle after `Lr` set it;
`exit`/`exit_code` are reset by `..Default::default()`). -/
def PipelineRegister.advance (r : PipelineRegister) : PipelineRegister :=
  { pc := r.next_pc, registers := r.registers, reservation := r.reservation }

/-- `PipelineRegister::effective_address`: `rs1 + imm` on `u64`
(wrapping in the release profile). -/
def PipelineRegister.effective_address (r : PipelineRegister) : Option Nat :=
  r.rs1_value.bind fun rs1 => r.immediate.map fun imm => (rs1 + imm) % W64

/-! ## Pipeline stages (`brisc-hw`, `pipeline/{fetch,decode,execute,memory,writeback}.rs`).
Each Rust stage takes `&mut PipelineRegister` (and possibly the memory) and
returns a `PipelineResult<()>`; it is embedded as a function returning the
mutated state together with an optional error (mutations made before an
early `return Err(..)` are kept, as they are in Rust). -/

/-- `instruction_fetch` (with the `c` feature enabled). -/
def instruction_fetch (p : PipelineRegister) (m : Mem) :
    PipelineRegister × Option PipelineError :=
  match get_word m p.pc with
  | .error e => (p, some (.MemoryError e))
  | .ok instr_raw =>
    let inc := if is_compressed instr_raw then 2 else 4
    ({ p with instruction_raw := some instr_raw, next_pc := (p.pc + inc) % W64 }, none)

/-- `decode_instruction`. -/
def decode_instruction (register : PipelineRegister) :
    PipelineRegister × Option PipelineError :=
  match register.instruction_raw with
  | none => (register, some (.MissingState "instruction_raw"))
  | some instruction_raw =>
    match Instruction.tryFrom instruction_raw with
    | .error e => (register, some (.InstructionDecodeError e))
    | .ok instruction =>
      let register' :=
        { register with
          rs1_value := instruction.rs1.map fun rs1 => register.registers rs1
          rs2_value := instruction.rs2.map fun rs2 => register.registers rs2
          rd := instruction.rd
          immediate := instruction.immediate
          instruction := some instruction }
      if instruction.is_system_call then
        (register', some (.SyscallException (register.registers REG_A7)))
      else
        (register', none)

/-- `execute_mem`. -/
def execute_mem (p : PipelineRegister) : Except PipelineError Nat :=
  match p.effective_address with
  | some a => .ok a
  | none => .error (.MissingState "effective_address")

/-- `execute_branch`: returns the target address (the branch target when the
condition holds, the fall-through `next_pc` otherwise). -/
def execute_branch (p : PipelineRegister) (b_type : BType) (funct : BranchFunction) :
    Except PipelineError Nat :=
  match p.rs1_value with
  | none => .error (.MissingState "rs1_value")
  | some rs1 =>
    match p.rs2_value with
    | none => .error (.MissingState "rs2_value")
    | some rs2 =>
      let target := (p.pc + b_type.imm) % W64
      let taken : Bool :=
        match funct with
        | .Beq => rs1 = rs2
        | .Bne => rs1 ≠ rs2
        | .Blt => toInt64 rs1 < toInt64 rs2
        | .Bge => toInt64 rs1 ≥ toInt64 rs2
        | .Bltu => rs1 < rs2
        | .Bgeu => rs1 ≥ rs2
      if taken then .ok target else .ok p.next_pc

/-- `execute_imm_arithmetic`. -/
def execute_imm_arithmetic (p : PipelineRegister) (i_type : IType)
    (funct : ImmediateArithmeticFunction) : Except PipelineError Nat :=
  match p.rs1_value with
  | none => .error (.MissingState "rs1_value")
  | some rs1 =>
    .ok <| match funct with
    | .Addi => (i_type.imm + rs1) % W64
    | .Xori => i_type.imm ^^^ rs1
    | .Ori => i_type.imm ||| rs1
    | .Andi => i_type.imm &&& rs1
    | .Slli => (rs1 <<< (i_type.imm &&& SHIFT_MASK)) % W64
    | .Srli => rs1 >>> (i_type.imm &&& SHIFT_MASK)
    | .Srai => ofInt64 ((toInt64 rs1).fdiv (2 ^ (i_type.imm &&& SHIFT_MASK)))
    | .Slti => if toInt64 rs1 < toInt64 i_type.imm then 1 else 0
    | .Sltiu => if rs1 < i_type.imm then 1 else 0

/-- `execute_reg_arithmetic` (with the `m` feature enabled).  Signed
division and remainder truncate toward zero and wrap on overflow
(`wrapping_div` / `wrapping_rem`); division by zero yields `XWord::MAX` for
`Div`/`Divu` and the dividend for `Rem`/`Remu`. -/
def execute_reg_arithmetic (p : PipelineRegister)
    (funct : RegisterArithmeticFunction) : Except PipelineError Nat :=
  match p.rs1_value with
  | none => .error (.MissingState "rs1_value")
  | some rs1 =>
    match p.rs2_value with
    | none => .error (.MissingState "rs2_value")
    | some rs2 =>
      .ok <| match funct with
      | .Add => (rs1 + rs2) % W64
      | .Sub => (rs1 + (W64 - rs2 % W64)) % W64
      | .Xor => rs1 ^^^ rs2
      | .Or => rs1 ||| rs2
      | .And => rs1 &&& rs2
      | .Sll => (rs1 <<< (rs2 &&& SHIFT_MASK)) % W64
      | .Srl => rs1 >>> (rs2 &&& SHIFT_MASK)
      | .Sra => ofInt64 ((toInt64 rs1).fdiv (2 ^ (rs2 &&& SHIFT_MASK)))
      | .Slt => if toInt64 rs1 < toInt64 rs2 then 1 else 0
      | .Sltu => if rs1 < rs2 then 1 else 0
      | .Mul => (rs1 * rs2) % W64
      | .Mulh => ofInt64 ((toInt64 rs1 * toInt64 rs2).fdiv (2 ^ 64))
      | .Mulhsu => ofInt64 ((toInt64 rs1 * (rs2 % W64 : Nat)).fdiv (2 ^ 64))
      | .Mulhu => (rs1 % W64) * (rs2 % W64) / 2 ^ 64
      | .Div => if rs2 = 0 then W64 - 1 else ofInt64 ((toInt64 rs1).tdiv (toInt64 rs2))
      | .Divu => if rs2 = 0 then W64 - 1 else rs1 / rs2
      | .Rem => if rs2 = 0 then rs1 else ofInt64 ((toInt64 rs1).tmod (toInt64 rs2))
      | .Remu => if rs2 = 0 then rs1 else rs1 % rs2

/-- `execute_imm_arithmetic_word`: compute on the low 32 bits, then
sign-extend bit 31 of the result. -/
def execute_imm_arithmetic_word (p : PipelineRegister) (i_type : IType)
    (funct : ImmediateArithmeticWordFunction) : Except PipelineError Nat :=
  match p.rs1_value with
  | none => .error (.MissingState "rs1_value")
  | some rs1value =>
    let rs1 := rs1value % W32
    let result := match funct with
      | .Addiw => (i_type.imm % W32 + rs1) % W32
      | .Slliw => (rs1 <<< (i_type.imm &&& 0x1F)) % W32
      | .Srliw => rs1 >>> (i_type.imm &&& 0x1F)
      | .Sraiw => ofInt32 ((toInt32 rs1).fdiv (2 ^ (i_type.imm &&& 0x1F)))
    .ok (sign_extend result 31)

/-- `execute_reg_arithmetic_word` (with the `m` feature enabled): compute on
the low 32 bits, then sign-extend bit 31 of the result. -/
def execute_reg_arithmetic_word (p : PipelineRegister)
    (funct : RegisterArithmeticWordFunction) : Except PipelineError Nat :=
  match p.rs1_value with
  | none => .error (.MissingState "rs1_value")
  | some rs1value =>
    match p.rs2_value with
    | none => .error (.MissingState "rs2_value")
    | some rs2value =>
      let rs1 := rs1value % W32
      let rs2 := rs2value % W32
      -- the source masks the shift amount with `SHIFT_MASK = 0x3F`; on `u32`
      -- a release-profile shift by 32..63 further reduces the amount mod 32
      let result := match funct with
        | .Addw => (rs1 + rs2) % W32
        | .Subw => (rs1 + (W32 - rs2 % W32)) % W32
        | .Sllw => (rs1 <<< ((rs2 &&& SHIFT_MASK) % 32)) % W32
        | .Srlw => rs1 >>> ((rs2 &&& SHIFT_MASK) % 32)
        | .Sraw => ofInt32 ((toInt32 rs1).fdiv (2 ^ ((rs2 &&& SHIFT_MASK) % 32)))
        | .Mulw => ofInt32 (toInt32 rs1 * toInt32 rs2)
        | .Divw => if rs2 = 0 then W32 - 1 else ofInt32 ((toInt32 rs1).tdiv (toInt32 rs2))
        | .Divuw => if rs2 = 0 then W32 - 1 else rs1 / rs2
        | .Remw => if rs2 = 0 then rs1 else ofInt32 ((toInt32 rs1).tmod (toInt32 rs2))
        | .Remuw => if rs2 = 0 then rs1 else rs1 % rs2
      .ok (sign_extend result 31)

/-- `execute`: the ALU stage. -/
def execute (p : PipelineRegister) : PipelineRegister × Option PipelineError :=
  match p.instruction with
  | none => (p, some (.MissingState "instruction"))
  | some instruction =>
    match instruction with
    | .MemoryLoad _ _ | .MemoryStore _ _ =>
      match execute_mem p with
      | .error e => (p, some e)
      | .ok result => ({ p with alu_result := some result }, none)
    | .Branch b_type funct =>
      match execute_branch p b_type funct with
      | .error e => (p, some e)
      | .ok target => ({ p with next_pc := target, alu_result := some target }, none)
    | .ImmediateArithmetic i_type funct =>
      match execute_imm_arithmetic p i_type funct with
      | .error e => (p, some e)
      | .ok result => ({ p with alu_result := some result }, none)
    | .RegisterArithmetic _ funct =>
      match execute_reg_arithmetic p funct with
      | .error e => (p, some e)
      | .ok result => ({ p with alu_result := some result }, none)
    | .Lui u_type => ({ p with alu_result := some u_type.imm }, none)
    | .Auipc u_type => ({ p with alu_result := some ((p.pc + u_type.imm) % W64) }, none)
    | .Jal j_type =>
      ({ p with next_pc := (p.pc + j_type.imm) % W64, alu_result := some p.next_pc }, none)
    | .Jalr i_type =>
      match p.rs1_value with
      | none => (p, some (.MissingState "rs1_value"))
      | some rs1 =>
        ({ p with next_pc := ((rs1 + i_type.imm) % W64) &&& (W64 - 2),
                  alu_result := some p.next_pc }, none)
    | .Fence => ({ p with alu_result := some 0 }, none)
    | .Environment _ funct =>
      match funct with
      | .Ecall => (p, some (.SyscallException (p.registers 0)))
      | .Ebreak => ({ p with alu_result := some 0 }, none)
    | .ImmediateArithmeticWord i_type funct =>
      match execute_imm_arithmetic_word p i_type funct with
      | .error e => (p, some e)
      | .ok result => ({ p with alu_result := some result }, none)
    | .RegisterArithmeticWord _ funct =>
      match execute_reg_arithmetic_word p funct with
      | .error e => (p, some e)
      | .ok result => ({ p with alu_result := some result }, none)
    | .Amo _ _ => ({ p with alu_result := some 0 }, none)

/-- The binary operation of the read-modify-write AMO instructions
(`Amoswap` through `Amomaxu`), on the already sign-adjusted operands. -/
def amoCombine (funct : AmoFunction) (mem rs2 : Nat) : Nat :=
  match funct with
  | .Amoswap => rs2
  | .Amoadd => (mem + rs2) % W64
  | .Amoxor => mem ^^^ rs2
  | .Amoand => mem &&& rs2
  | .Amoor => mem ||| rs2
  | .Amomin => ofInt64 (min (toInt64 rs2) (toInt64 mem))
  | .Amomax => ofInt64 (max (toInt64 rs2) (toInt64 mem))
  | .Amominu => min rs2 mem
  | .Amomaxu => max rs2 mem
  | _ => 0

/-- `mem_access`: the memory stage (with the `64-bit` and `a` features
enabled).  Returns the mutated pipeline register, the mutated memory, and
the optional error; mutations performed before an early `return Err(..)`
are kept. -/
def mem_access (p_reg : PipelineRegister) (memory : Mem) :
    PipelineRegister × Mem × Option PipelineError :=
  match p_reg.instruction with
  | none => (p_reg, memory, some (.MissingState "instruction"))
  | some instruction =>
    match p_reg.alu_result with
    | none => (p_reg, memory, some (.MissingState "alu_result"))
    | some effective_address =>
      match instruction with
      | .MemoryLoad _ funct =>
        let loaded : Except PipelineError Nat :=
          match funct with
          | .Lb =>
            match get_byte memory effective_address with
            | .error e => .error (.MemoryError e)
            | .ok b => .ok (sign_extend b 7)
          | .Lbu =>
            match get_byte memory effective_address with
            | .error e => .error (.MemoryError e)
            | .ok b => .ok b
          | .Lh =>
            match get_halfword memory effective_address with
            | .error e => .error (.MemoryError e)
            | .ok h => .ok (sign_extend h 15)
          | .Lhu =>
            match get_halfword memory effective_address with
            | .error e => .error (.MemoryError e)
            | .ok h => .ok h
          | .Lw =>
            match get_word memory effective_address with
            | .error e => .error (.MemoryError e)
            | .ok w => .ok (sign_extend w 31)
          | .Lwu =>
            match get_word memory effective_address with
            | .error e => .error (.MemoryError e)
            | .ok w => .ok w
          | .Ld =>
            match get_doubleword memory effective_address with
            | .error e => .error (.MemoryError e)
            | .ok d => .ok d
        match loaded with
        | .error e => (p_reg, memory, some e)
        | .ok value => ({ p_reg with memory := some value }, memory, none)
      | .MemoryStore _ funct =>
        match p_reg.rs2_value with
        | none => (p_reg, memory, some (.MissingState "rs2_value"))
        | some value =>
          let stored : Except PipelineError Mem :=
            match funct with
            | .Sb =>
              match set_byte memory effective_address (value % 256) with
              | .error e => .error (.MemoryError e)
              | .ok m => .ok m
            | .Sh =>
              match set_halfword memory effective_address (value % 2 ^ 16) with
              | .error e => .error (.MemoryError e)
              | .ok m => .ok m
            | .Sw =>
              match set_word memory effective_address (value % W32) with
              | .error e => .error (.MemoryError e)
              | .ok m => .ok m
            | .Sd =>
              match set_doubleword memory effective_address (value % W64) with
              | .error e => .error (.MemoryError e)
              | .ok m => .ok m
          match stored with
          | .error e => (p_reg, memory, some e)
          | .ok m => (p_reg, m, none)
      | .Amo r_type funct =>
        let size := 2 ^ r_type.funct3
        if size < 4 then (p_reg, memory, some (.BadAmoSize size))
        else
          match p_reg.rs1_value with
          | none => (p_reg, memory, some (.MissingState "rs1_value"))
          | some addr =>
            if (size = 8 ∧ addr % 8 ≠ 0) ∨ (size = 4 ∧ addr % 4 ≠ 0) then
              (p_reg, memory, some .UnalignedAmo)
            else
              match funct with
              | .Lr =>
                let value : Except PipelineError Nat :=
                  if size = 4 then
                    match get_word memory addr with
                    | .error e => .error (.MemoryError e)
                    | .ok w => .ok w
                  else if size = 8 then
                    match get_doubleword memory addr with
                    | .error e => .error (.MemoryError e)
                    | .ok d => .ok d
                  else .error (.BadAmoSize size)
                match value with
                | .error e => (p_reg, memory, some e)
                | .ok v =>
                  ({ p_reg with memory := some v, reservation := some addr }, memory, none)
              | .Sc =>
                let p1 := { p_reg with memory := some 1 }
                match p_reg.reservation with
                | some reservation =>
                  if reservation = addr then
                    match p1.rs2_value with
                    | none => (p1, memory, some (.MissingState "rs2_value"))
                    | some rs2 =>
                      let written : Except PipelineError Mem :=
                        if size = 4 then
                          match set_word memory addr (rs2 % W32) with
                          | .error e => .error (.MemoryError e)
                          | .ok m => .ok m
                        else if size = 8 then
                          match set_doubleword memory addr rs2 with
                          | .error e => .error (.MemoryError e)
                          | .ok m => .ok m
                        else .error (.BadAmoSize size)
                      match written with
                      | .error e => (p1, memory, some e)
                      | .ok m =>
                        ({ p1 with memory := some 0, reservation := none }, m, none)
                  else ({ p1 with reservation := none }, memory, none)
                | none => ({ p1 with reservation := none }, memory, none)
              | _ =>
                match p_reg.rs2_value with
                | none => (p_reg, memory, some (.MissingState "rs2_value"))
                | some rs2value =>
                  let memValue : Except PipelineError Nat :=
                    if size = 4 then
                      match get_word memory addr with
                      | .error e => .error (.MemoryError e)
                      | .ok w => .ok w
                    else if size = 8 then
                      match get_doubleword memory addr with
                      | .error e => .error (.MemoryError e)
                      | .ok d => .ok d
                    else .error (.BadAmoSize size)
                  match memValue with
                  | .error e => (p_reg, memory, some e)
                  | .ok memRaw =>
                    let rs2 := if size = 4 then sign_extend (rs2value &&& 0xFFFFFFFF) 31 else rs2value
                    let mem := if size = 4 then sign_extend (memRaw &&& 0xFFFFFFFF) 31 else memRaw
                    let p1 := { p_reg with memory := some mem }
                    let combined := amoCombine funct mem rs2
                    let written : Except PipelineError Mem :=
                      if size = 4 then
                        match set_word memory addr (combined % W32) with
                        | .error e => .error (.MemoryError e)
                        | .ok m => .ok m
                      else
                        match set_doubleword memory addr (combined % W64) with
                        | .error e => .error (.MemoryError e)
                        | .ok m => .ok m
                    match written with
                    | .error e => (p1, memory, some e)
                    | .ok m => (p1, m, none)
      | _ => (p_reg, memory, none)

/-- `writeback`: if `rd` is present and non-zero, write the memory-stage
result when present, else the ALU result, into the register file. -/
def writeback (p_reg : PipelineRegister) : PipelineRegister × Option PipelineError :=
  match p_reg.rd with
  | none => (p_reg, none)
  | some rd =>
    if rd = 0 then (p_reg, none)
    else
      match p_reg.memory with
      | some mem => ({ p_reg with registers := rupd p_reg.registers rd mem }, none)
      | none =>
        match p_reg.alu_result with
        | some alu_result =>
          ({ p_reg with registers := rupd p_reg.registers rd alu_result }, none)
        | none => (p_reg, none)

/-! ## Single-threaded emulator driver (`brisc-emu`, `st/mod.rs`). -/

/-- The state of `StEmu`: pipeline register and device memory. -/
structure StEmu where
  register : PipelineRegister
  memory : Mem

/-- A `SyscallInterface` (`linux.rs`): given the syscall number, the memory
and the pipeline register, it may mutate both and return an `XWord` (which
the core discards). -/
def Kernel : Type :=
  Nat → Mem → PipelineRegister → Except PipelineError (Nat × Mem × PipelineRegister)

/-- The five stages run sequentially (`and_then` chain); a stage error
short-circuits the rest, keeping the mutations already made. -/
def stages (r : PipelineRegister) (m : Mem) :
    PipelineRegister × Mem × Option PipelineError :=
  match instruction_fetch r m with
  | (r1, some e) => (r1, m, some e)
  | (r1, none) =>
    match decode_instruction r1 with
    | (r2, some e) => (r2, m, some e)
    | (r2, none) =>
      match execute r2 with
      | (r3, some e) => (r3, m, some e)
      | (r3, none) =>
        match mem_access r3 m with
        | (r4, m4, some e) => (r4, m4, some e)
        | (r4, m4, none) =>
          match writeback r4 with
          | (r5, some e) => (r5, m4, some e)
          | (r5, none) => (r5, m4, none)

/-- The syscall arm of `StEmu::cycle`: invoke the kernel, return immediately
if it set `exit`, otherwise advance the pipeline register. -/
def dispatch_syscall (k : Kernel) (sysno : Nat) (m : Mem) (r : PipelineRegister) :
    Except PipelineError StEmu :=
  match k sysno m r with
  | .error e => .error e
  | .ok (_, m', r') =>
    if r'.exit then .ok ⟨r', m'⟩ else .ok ⟨r'.advance, m'⟩

/-- `StEmu::cycle`: run the five stages; on `SyscallException` dispatch to
the kernel; on any other error, fail; otherwise advance. -/
def cycle (k : Kernel) (e : StEmu) : Except PipelineError StEmu :=
  match stages e.register e.memory with
  | (r', m', some (.SyscallException sysno)) => dispatch_syscall k sysno m' r'
  | (_, _, some err) => .error err
  | (r', m', none) => .ok ⟨r'.advance, m'⟩

/-! ## Helper lemmas. -/

theorem pageOrAlloc_eq (m : Mem) (i : Nat) : pageOrAlloc m i = .ok ((m i).getD zeroPage) := by
  unfold pageOrAlloc
  cases m i <;> rfl

/-- The net memory produced by a scalar setter. -/
def setScalarMem (L : Nat) (m : Mem) (address value : Nat) : Mem :=
  let pageIndex := address / PAGE_SIZE
  let pageAddress := address % PAGE_SIZE
  let datLen := min L (PAGE_SIZE - pageAddress)
  let m1 := mupd m pageIndex (pwrite ((m pageIndex).getD zeroPage) pageAddress (leByte value) datLen)
  if datLen < L then
    mupd m1 (pageIndex + 1)
      (pwrite ((m1 (pageIndex + 1)).getD zeroPage) 0 (fun j => leByte value (datLen + j)) (L - datLen))
  else m1

theorem setScalar_eq (L : Nat) (m : Mem) (a v : Nat) :
    setScalar L m a v = .ok (setScalarMem L m a v) := by
  unfold setScalar setScalarMem
  simp only [pageOrAlloc_eq, Except.bind]
  split
  · simp only [pageOrAlloc_eq, Except.bind]
  · rfl

theorem mupd_self (m : Mem) (i : Nat) (p : Page) : mupd m i p i = some p := by
  simp [mupd]

theorem mupd_ne (m : Mem) (i : Nat) (p : Page) (j : Nat) (h : j ≠ i) : mupd m i p j = m j := by
  simp [mupd, h]

theorem pwrite_in (p : Page) (start : Nat) (bytes : Nat → Nat) (len off : Nat)
    (h1 : start ≤ off) (h2 : off < start + len) :
    pwrite p start bytes len off = bytes (off - start) := by
  simp [pwrite, h1, h2]

theorem pwrite_out (p : Page) (start : Nat) (bytes : Nat → Nat) (len off : Nat)
    (h : off < start ∨ start + len ≤ off) :
    pwrite p start bytes len off = p off := by
  rcases h with h | h
  · simp [pwrite]
    omega
  · simp [pwrite]
    omega

/-- Little-endian byte recomposition: summing the low `L` bytes of `v`
recovers `v % 2^(8L)`. -/
theorem byteSum (L v : Nat) :
    (Finset.range L).sum (fun i => leByte v i * 2 ^ (8 * i)) = v % 2 ^ (8 * L) := by
  induction L with
  | zero => simp [Nat.mod_one]
  | succ n ih =>
    rw [Finset.sum_range_succ, ih]
    have h2 : 2 ^ (8 * (n + 1)) = 2 ^ (8 * n) * 2 ^ 8 := by ring
    rw [h2, Nat.mod_mul, leByte]
    ring_nf

/-! ## C2: the pipeline-register `advance` frame. -/

/-- C2 counterexample: the claim says `advance` leaves the exit flag and
`exit_code` unchanged; on the pipeline register with `exit = true` and
`exit_code = 7`, `advance` resets both (the source writes
`Self { pc, registers, ..Default::default() }`). -/
theorem c2_advance_counterexample :
    (PipelineRegister.advance { exit := true, exit_code := 7, next_pc := 100 }).exit = false ∧
    (PipelineRegister.advance { exit := true, exit_code := 7, next_pc := 100 }).exit_code = 0 ∧
    ({ exit := true, exit_code := 7, next_pc := 100 } : PipelineRegister).exit = true ∧
    ({ exit := true, exit_code := 7, next_pc := 100 } : PipelineRegister).exit_code = 7 := by
  refine ⟨rfl, rfl, rfl, rfl⟩

/-- C2 (amended): `advance` clears all transient fields (`instruction_raw`,
`instruction`, `rs1_value`, `rs2_value`, `immediate`, `rd`, `alu_result`,
`memory`), sets `pc` to the old `next_pc`, and leaves the register file and
the AMO reservation unchanged; the `exit` flag and `exit_code` are reset to
`false` and `0` (not preserved). -/
theorem c2_advance_frame (r : PipelineRegister) :
    (r.advance).pc = r.next_pc ∧
    (r.advance).registers = r.registers ∧
    (r.advance).reservation = r.reservation ∧
    (r.advance).instruction_raw = none ∧
    (r.advance).instruction = none ∧
    (r.advance).rs1_value = none ∧
    (r.advance).rs2_value = none ∧
    (r.advance).immediate = none ∧
    (r.advance).rd = none ∧
    (r.advance).alu_result = none ∧
    (r.advance).memory = none ∧
    (r.advance).exit = false ∧
    (r.advance).exit_code = 0 := by
  refine ⟨rfl, rfl, rfl, rfl, rfl, rfl, rfl, rfl, rfl, rfl, rfl, rfl, rfl⟩

/-! ## C9: the fetch stage. -/

/-- C9: for every pipeline register and memory, fetch reads the 32-bit word
at `pc`, stores it in `instruction_raw`, and sets
`next_pc = pc + (2 if compressed else 4)` (XLEN-wrapped); it succeeds, does
not decode (`instruction` is untouched), and touches nothing else. -/
theorem c9_fetch_next_pc (p : PipelineRegister) (m : Mem) :
    instruction_fetch p m =
      ({ p with
          instruction_raw := some (getScalarVal 4 m p.pc)
          next_pc :=
            (p.pc + if is_compressed (getScalarVal 4 m p.pc) then 2 else 4) % W64 },
        none) := by
  rfl

/-! ## C7: effective addresses wrap at XLEN bits. -/

/-- C7: with `rs1_value` and `immediate` populated, the execute stage
computes the effective address of a `MemoryLoad`/`MemoryStore` as
`rs1_value + immediate` reduced modulo `2^64`, and stores it in
`alu_result` without any failure. -/
theorem c7_effective_address_wrap (r : PipelineRegister) (rs1 imm : Nat)
    (h1 : r.rs1_value = some rs1) (h2 : r.immediate = some imm) :
    r.effective_address = some ((rs1 + imm) % W64) ∧
    (∀ it f, r.instruction = some (.MemoryLoad it f) →
      execute r = ({ r with alu_result := some ((rs1 + imm) % W64) }, none)) ∧
    (∀ st f, r.instruction = some (.MemoryStore st f) →
      execute r = ({ r with alu_result := some ((rs1 + imm) % W64) }, none)) := by
  have heff : r.effective_address = some ((rs1 + imm) % W64) := by
    simp [PipelineRegister.effective_address, h1, h2]
  refine ⟨heff, ?_, ?_⟩
  · intro it f hinstr
    simp [execute, hinstr, execute_mem, heff]
  · intro st f hinstr
    simp [execute, hinstr, execute_mem, heff]

/-- C7 witness: at `rs1_value = 2^64 - 1` and `immediate = 1` the effective
address is `0` rather than a failure. -/
theorem c7_effective_address_wrap_witness :
    ({ rs1_value := some (2 ^ 64 - 1), immediate := some 1 } :
        PipelineRegister).effective_address = some ((2 ^ 64 - 1 + 1) % W64) ∧
    (2 ^ 64 - 1 + 1) % W64 = 0 :=
  ⟨(c7_effective_address_wrap
      { rs1_value := some (2 ^ 64 - 1), immediate := some 1 } (2 ^ 64 - 1) 1 rfl rfl).1,
    by decide⟩

/-! ## C5: division by zero. -/

/-- C5: with the operands populated, `Div` and `Divu` on a zero divisor
return all-ones (`XWord::MAX = 2^64 - 1`) and `Rem`/`Remu` return the
dividend, as `Ok` results (never an error); the RV64 word variants apply the
same rule on the low 32 bits of the operands and sign-extend bit 31 of the
result (`Word::MAX` sign-extends to `XWord::MAX`). -/
theorem c5_div_by_zero (p : PipelineRegister) (rs1 rs2 : Nat)
    (h1 : p.rs1_value = some rs1) (h2 : p.rs2_value = some rs2) :
    (rs2 = 0 →
      execute_reg_arithmetic p .Div = .ok (W64 - 1) ∧
      execute_reg_arithmetic p .Divu = .ok (W64 - 1) ∧
      execute_reg_arithmetic p .Rem = .ok rs1 ∧
      execute_reg_arithmetic p .Remu = .ok rs1) ∧
    (rs2 % W32 = 0 →
      execute_reg_arithmetic_word p .Divw = .ok (sign_extend (W32 - 1) 31) ∧
      execute_reg_arithmetic_word p .Divuw = .ok (sign_extend (W32 - 1) 31) ∧
      execute_reg_arithmetic_word p .Remw = .ok (sign_extend (rs1 % W32) 31) ∧
      execute_reg_arithmetic_word p .Remuw = .ok (sign_extend (rs1 % W32) 31)) ∧
    sign_extend (W32 - 1) 31 = W64 - 1 := by
  refine ⟨?_, ?_, by decide⟩
  · intro hz
    subst hz
    refine ⟨?_, ?_, ?_, ?_⟩ <;> simp [execute_reg_arithmetic, h1, h2]
  · intro hz
    refine ⟨?_, ?_, ?_, ?_⟩ <;> simp [execute_reg_arithmetic_word, h1, h2, hz]

/-- C5 witness: dividing 7 by 0. -/
theorem c5_div_by_zero_witness :
    ((0 : Nat) = 0 →
      execute_reg_arithmetic { rs1_value := some 7, rs2_value := some 0 } .Div = .ok (W64 - 1) ∧
      execute_reg_arithmetic { rs1_value := some 7, rs2_value := some 0 } .Divu = .ok (W64 - 1) ∧
      execute_reg_arithmetic { rs1_value := some 7, rs2_value := some 0 } .Rem = .ok 7 ∧
      execute_reg_arithmetic { rs1_value := some 7, rs2_value := some 0 } .Remu = .ok 7) ∧
    ((0 : Nat) % W32 = 0 →
      execute_reg_arithmetic_word { rs1_value := some 7, rs2_value := some 0 } .Divw =
        .ok (sign_extend (W32 - 1) 31) ∧
      execute_reg_arithmetic_word { rs1_value := some 7, rs2_value := some 0 } .Divuw =
        .ok (sign_extend (W32 - 1) 31) ∧
      execute_reg_arithmetic_word { rs1_value := some 7, rs2_value := some 0 } .Remw =
        .ok (sign_extend (7 % W32) 31) ∧
      execute_reg_arithmetic_word { rs1_value := some 7, rs2_value := some 0 } .Remuw =
        .ok (sign_extend (7 % W32) 31)) ∧
    sign_extend (W32 - 1) 31 = W64 - 1 :=
  c5_div_by_zero { rs1_value := some 7, rs2_value := some 0 } 7 0 rfl rfl

/-! ## C8: the reserved `C.ADDI4SPN` encoding with a zero immediate. -/

/-- C8: evaluation of the decoder at the failing input.  The claim (and the
RISC-V C extension) reserve `C.ADDI4SPN` with a zero immediate, but
`C0::decode` performs no zero check: the all-zero halfword `0x0000`
(quadrant C0, funct3 `000`, immediate field zero) decodes successfully and
expands to `addi x8, x2, 0` instead of being rejected. -/
theorem c8_addi4spn_zero_imm_accepted :
    Instruction.tryFrom 0x0000 =
      .ok (.ImmediateArithmetic { rd := 8, funct3 := 0, rs1 := 2, imm := 0 } .Addi) := by
  decide

/-! ## C10: scalar accessors are infallible on `SimpleMemory`. -/

/-- C10: every scalar accessor of the sparse paged memory returns `Ok` for
every 64-bit address and value — the getters read unmapped bytes as zero
and the setters allocate missing pages (`SimpleMemory::alloc` cannot fail)
— while the range reader `read_memory_range` does return
`PageNotFound` when it crosses an unmapped page. -/
theorem c10_scalar_accessors_infallible :
    (∀ m a, ∃ v, get_byte m a = .ok v) ∧
    (∀ m a v, ∃ m2, set_byte m a v = .ok m2) ∧
    (∀ m a, get_halfword m a = .ok (getScalarVal 2 m a)) ∧
    (∀ m a v, set_halfword m a v = .ok (setScalarMem 2 m a v)) ∧
    (∀ m a, get_word m a = .ok (getScalarVal 4 m a)) ∧
    (∀ m a v, set_word m a v = .ok (setScalarMem 4 m a v)) ∧
    (∀ m a, get_doubleword m a = .ok (getScalarVal 8 m a)) ∧
    (∀ m a v, set_doubleword m a v = .ok (setScalarMem 8 m a v)) ∧
    read_memory_range Mem.empty 0 1 = .error (.PageNotFound 0) := by
  refine ⟨?_, ?_, ?_, ?_, ?_, ?_, ?_, ?_, ?_⟩
  · intro m a
    cases h : m (a / PAGE_SIZE) <;> simp [get_byte, h]
  · intro m a v
    simp only [set_byte, pageOrAlloc_eq, Except.bind]
    exact ⟨_, rfl⟩
  · intro m a; rfl
  · intro m a v; exact setScalar_eq 2 m a v
  · intro m a; rfl
  · intro m a v; exact setScalar_eq 4 m a v
  · intro m a; rfl
  · intro m a v; exact setScalar_eq 8 m a v
  · rw [read_memory_range]
    simp [Mem.empty]

/-! ## Memory roundtrip lemmas. -/

theorem getScalarVal_eq (L : Nat) (m : Mem) (a : Nat) (p : Page)
    (hp : m (a / PAGE_SIZE) = some p) :
    getScalarVal L m a =
      (Finset.range L).sum (fun i =>
        (if i < min L (PAGE_SIZE - a % PAGE_SIZE) then p (a % PAGE_SIZE + i)
         else
           match m (a / PAGE_SIZE + 1) with
           | some p2 => p2 (i - min L (PAGE_SIZE - a % PAGE_SIZE))
           | none => 0) * 2 ^ (8 * i)) := by
  simp only [getScalarVal, hp, Option.getD_some]

theorem getScalarVal_eq2 (L : Nat) (m : Mem) (a : Nat) (p p2 : Page)
    (hp : m (a / PAGE_SIZE) = some p) (hp2 : m (a / PAGE_SIZE + 1) = some p2) :
    getScalarVal L m a =
      (Finset.range L).sum (fun i =>
        (if i < min L (PAGE_SIZE - a % PAGE_SIZE) then p (a % PAGE_SIZE + i)
         else p2 (i - min L (PAGE_SIZE - a % PAGE_SIZE))) * 2 ^ (8 * i)) := by
  simp only [getScalarVal, hp, hp2, Option.getD_some]

/-- Reading back a just-written scalar at the same address recovers the
value reduced to the access width, page splits included. -/
theorem getScalarVal_setScalarMem (L : Nat) (hL1 : 1 ≤ L)
    (m : Mem) (a v : Nat) :
    getScalarVal L (setScalarMem L m a v) a = v % 2 ^ (8 * L) := by
  have hpa : a % PAGE_SIZE < PAGE_SIZE := Nat.mod_lt _ (by norm_num [PAGE_SIZE])
  have hdat1 : 1 ≤ min L (PAGE_SIZE - a % PAGE_SIZE) := by omega
  have hdatL : min L (PAGE_SIZE - a % PAGE_SIZE) ≤ L := by omega
  by_cases hsplit : min L (PAGE_SIZE - a % PAGE_SIZE) < L
  · -- the access crosses the page boundary
    have hm' : setScalarMem L m a v =
        mupd
          (mupd m (a / PAGE_SIZE)
            (pwrite ((m (a / PAGE_SIZE)).getD zeroPage) (a % PAGE_SIZE) (leByte v)
              (min L (PAGE_SIZE - a % PAGE_SIZE))))
          (a / PAGE_SIZE + 1)
          (pwrite
            ((mupd m (a / PAGE_SIZE)
              (pwrite ((m (a / PAGE_SIZE)).getD zeroPage) (a % PAGE_SIZE) (leByte v)
                (min L (PAGE_SIZE - a % PAGE_SIZE))) (a / PAGE_SIZE + 1)).getD zeroPage)
            0 (fun j => leByte v (min L (PAGE_SIZE - a % PAGE_SIZE) + j))
            (L - min L (PAGE_SIZE - a % PAGE_SIZE))) := by
      simp only [setScalarMem, if_pos hsplit]
    have hp1 : setScalarMem L m a v (a / PAGE_SIZE) =
        some (pwrite ((m (a / PAGE_SIZE)).getD zeroPage) (a % PAGE_SIZE) (leByte v)
          (min L (PAGE_SIZE - a % PAGE_SIZE))) := by
      rw [hm', mupd_ne _ _ _ _ (by omega), mupd_self]
    have hp2 : setScalarMem L m a v (a / PAGE_SIZE + 1) =
        some (pwrite
          ((mupd m (a / PAGE_SIZE)
            (pwrite ((m (a / PAGE_SIZE)).getD zeroPage) (a % PAGE_SIZE) (leByte v)
              (min L (PAGE_SIZE - a % PAGE_SIZE))) (a / PAGE_SIZE + 1)).getD zeroPage)
          0 (fun j => leByte v (min L (PAGE_SIZE - a % PAGE_SIZE) + j))
          (L - min L (PAGE_SIZE - a % PAGE_SIZE))) := by
      rw [hm', mupd_self]
    rw [getScalarVal_eq2 L _ a _ _ hp1 hp2, ← byteSum L v]
    apply Finset.sum_congr rfl
    intro i hi
    rw [Finset.mem_range] at hi
    by_cases hic : i < min L (PAGE_SIZE - a % PAGE_SIZE)
    · rw [if_pos hic, pwrite_in _ _ _ _ _ (by omega) (by omega)]
      have harg : a % PAGE_SIZE + i - a % PAGE_SIZE = i := by omega
      rw [harg]
    · rw [if_neg hic, pwrite_in _ _ _ _ _ (by omega) (by omega)]
      have harg : min L (PAGE_SIZE - a % PAGE_SIZE) + (i - min L (PAGE_SIZE - a % PAGE_SIZE) - 0) = i := by
        omega
      rw [Nat.sub_zero] at harg ⊢
      rw [harg]
  · -- the access fits in one page
    have hdatEq : min L (PAGE_SIZE - a % PAGE_SIZE) = L := by omega
    have hm' : setScalarMem L m a v =
        mupd m (a / PAGE_SIZE)
          (pwrite ((m (a / PAGE_SIZE)).getD zeroPage) (a % PAGE_SIZE) (leByte v)
            (min L (PAGE_SIZE - a % PAGE_SIZE))) := by
      simp only [setScalarMem, if_neg hsplit]
    have hp1 : setScalarMem L m a v (a / PAGE_SIZE) =
        some (pwrite ((m (a / PAGE_SIZE)).getD zeroPage) (a % PAGE_SIZE) (leByte v)
          (min L (PAGE_SIZE - a % PAGE_SIZE))) := by
      rw [hm', mupd_self]
    rw [getScalarVal_eq L _ a _ hp1, ← byteSum L v]
    apply Finset.sum_congr rfl
    intro i hi
    rw [Finset.mem_range] at hi
    rw [if_pos (by omega), pwrite_in _ _ _ _ _ (by omega) (by omega)]
    have harg : a % PAGE_SIZE + i - a % PAGE_SIZE = i := by omega
    rw [harg]

/-! ## C6: `set_word` then `get_word` roundtrip. -/

/-- C6: for every memory state, every 64-bit address `a` — including
addresses whose four bytes span a page boundary — and every 32-bit value
`v`, `set_word(a, v)` succeeds and a subsequent `get_word(a)` returns
`Ok(v)`. -/
theorem c6_set_get_word_roundtrip (m : Mem) (a v : Nat) (ha : a < W64) (hv : v < W32) :
    set_word m a v = .ok (setScalarMem 4 m a v) ∧
    get_word (setScalarMem 4 m a v) a = .ok v := by
  refine ⟨setScalar_eq 4 m a v, ?_⟩
  unfold get_word getScalar
  rw [getScalarVal_setScalarMem 4 (by norm_num) m a v]
  congr 1
  exact Nat.mod_eq_of_lt hv

/-- C6 witness: a word written at address 4094 straddles pages 0 and 1 and
reads back unchanged. -/
theorem c6_set_get_word_roundtrip_witness :
    set_word Mem.empty 4094 0xDEADBEEF = .ok (setScalarMem 4 Mem.empty 4094 0xDEADBEEF) ∧
    get_word (setScalarMem 4 Mem.empty 4094 0xDEADBEEF) 4094 = .ok 0xDEADBEEF :=
  c6_set_get_word_roundtrip Mem.empty 4094 0xDEADBEEF (by decide) (by decide)

/-! ## C4: decode error taxonomy. -/

/-- The top-level opcodes `Instruction::try_from` recognises (all features
enabled). -/
def recognizedOpcodes : List Nat :=
  [0x03, 0x23, 0x63, 0x13, 0x33, 0x37, 0x17, 0x6F, 0x67, 0x73, 0x0F, 0x1B, 0x3B, 0x2F]

/-- The load operations the classification table defines (RV64:
LB, LH, LW, LD, LBU, LHU, LWU), by `funct3`. -/
def loadDefined : List Nat := [0x00, 0x01, 0x02, 0x03, 0x04, 0x05, 0x06]

/-- The store operations the classification table defines (SB, SH, SW, SD),
by `funct3`. -/
def storeDefined : List Nat := [0x00, 0x01, 0x02, 0x03]

/-- The branch operations the classification table defines (BEQ, BNE, BLT,
BGE, BLTU, BGEU), by `funct3`. -/
def branchDefined : List Nat := [0x00, 0x01, 0x04, 0x05, 0x06, 0x07]

/-- The register-arithmetic operations the classification table defines
(RV32I plus the M extension), by `(funct3, funct7)`. -/
def regArithDefined : List (Nat × Nat) :=
  [(0x00, 0x00), (0x00, 0x20), (0x04, 0x00), (0x06, 0x00), (0x07, 0x00),
   (0x01, 0x00), (0x05, 0x00), (0x05, 0x20), (0x02, 0x00), (0x03, 0x00),
   (0x00, 0x01), (0x01, 0x01), (0x02, 0x01), (0x03, 0x01), (0x04, 0x01),
   (0x05, 0x01), (0x06, 0x01), (0x07, 0x01)]

/-- The register-arithmetic word operations the classification table
defines (RV64I plus the M extension), by `(funct3, funct7)`. -/
def regArithWordDefined : List (Nat × Nat) :=
  [(0x00, 0x00), (0x00, 0x20), (0x01, 0x00), (0x05, 0x00), (0x05, 0x20),
   (0x00, 0x01), (0x04, 0x01), (0x05, 0x01), (0x06, 0x01), (0x07, 0x01)]

/-- The immediate-arithmetic operations the classification table defines:
every `funct3` except `101` unconditionally, and the shifts `SRLI`/`SRAI`
(`funct3 = 101`) only with their immediate-derived qualifier (bits
`[6, 12)` of the immediate equal to `0` or `0x10` in the `64-bit`
configuration). -/
def immArithDefined (value : IType) : Prop :=
  value.funct3 ∈ [0x00, 0x01, 0x02, 0x03, 0x04, 0x06, 0x07] ∨
  (value.funct3 = 0x05 ∧ (bitsOf value.imm 6 12 = 0 ∨ bitsOf value.imm 6 12 = 0x10))

instance (value : IType) : Decidable (immArithDefined value) := by
  unfold immArithDefined
  exact inferInstance

/-- The immediate-arithmetic word operations the classification table
defines: ADDIW unconditionally, and the shifts `SLLIW`/`SRLIW`/`SRAIW`
only with their immediate-derived qualifier (bits `[5, 12)` of the
immediate equal to `0` or `0x20`). -/
def immArithWordDefined (value : IType) : Prop :=
  value.funct3 = 0x00 ∨
  (value.funct3 = 0x01 ∧ bitsOf value.imm 5 12 = 0) ∨
  (value.funct3 = 0x05 ∧ (bitsOf value.imm 5 12 = 0 ∨ bitsOf value.imm 5 12 = 0x20))

instance (value : IType) : Decidable (immArithWordDefined value) := by
  unfold immArithWordDefined
  exact inferInstance

/-- The AMO operations the classification table defines, by
`funct7[2..7)`. -/
def amoDefined : List Nat :=
  [0b00010, 0b00011, 0b00001, 0b00000, 0b00100, 0b01100, 0b01000,
   0b10000, 0b10100, 0b11000, 0b11100]


theorem loadTryFrom_cases (value : IType) :
    (value.funct3 ∈ loadDefined → ∃ f, LoadFunction.tryFrom value = .ok f) ∧
    (value.funct3 ∉ loadDefined →
      LoadFunction.tryFrom value = .error (.InvalidFunction value.funct3 0)) := by
  constructor
  · intro hmem
    simp only [loadDefined, List.mem_cons, List.not_mem_nil, or_false] at hmem
    rcases hmem with h|h|h|h|h|h|h
    · exact ⟨.Lb, by simp [LoadFunction.tryFrom, h]⟩
    · exact ⟨.Lh, by simp [LoadFunction.tryFrom, h]⟩
    · exact ⟨.Lw, by simp [LoadFunction.tryFrom, h]⟩
    · exact ⟨.Ld, by simp [LoadFunction.tryFrom, h]⟩
    · exact ⟨.Lbu, by simp [LoadFunction.tryFrom, h]⟩
    · exact ⟨.Lhu, by simp [LoadFunction.tryFrom, h]⟩
    · exact ⟨.Lwu, by simp [LoadFunction.tryFrom, h]⟩
  · intro hmem
    simp only [loadDefined, List.mem_cons, List.not_mem_nil, or_false] at hmem
    push_neg at hmem
    obtain ⟨h0, h1, h2, h3, h4, h5, h6⟩ := hmem
    simp [LoadFunction.tryFrom, h0, h1, h2, h3, h4, h5, h6]

theorem storeTryFrom_cases (value : SType) :
    (value.funct3 ∈ storeDefined → ∃ f, StoreFunction.tryFrom value = .ok f) ∧
    (value.funct3 ∉ storeDefined →
      StoreFunction.tryFrom value = .error (.InvalidFunction value.funct3 0)) := by
  constructor
  · intro hmem
    simp only [storeDefined, List.mem_cons, List.not_mem_nil, or_false] at hmem
    rcases hmem with h|h|h|h
    · exact ⟨.Sb, by simp [StoreFunction.tryFrom, h]⟩
    · exact ⟨.Sh, by simp [StoreFunction.tryFrom, h]⟩
    · exact ⟨.Sw, by simp [StoreFunction.tryFrom, h]⟩
    · exact ⟨.Sd, by simp [StoreFunction.tryFrom, h]⟩
  · intro hmem
    simp only [storeDefined, List.mem_cons, List.not_mem_nil, or_false] at hmem
    push_neg at hmem
    obtain ⟨h0, h1, h2, h3⟩ := hmem
    simp [StoreFunction.tryFrom, h0, h1, h2, h3]

theorem branchTryFrom_cases (value : BType) :
    (value.funct3 ∈ branchDefined → ∃ f, BranchFunction.tryFrom value = .ok f) ∧
    (value.funct3 ∉ branchDefined →
      BranchFunction.tryFrom value = .error (.InvalidFunction value.funct3 0)) := by
  constructor
  · intro hmem
    simp only [branchDefined, List.mem_cons, List.not_mem_nil, or_false] at hmem
    rcases hmem with h|h|h|h|h|h
    · exact ⟨.Beq, by simp [BranchFunction.tryFrom, h]⟩
    · exact ⟨.Bne, by simp [BranchFunction.tryFrom, h]⟩
    · exact ⟨.Blt, by simp [BranchFunction.tryFrom, h]⟩
    · exact ⟨.Bge, by simp [BranchFunction.tryFrom, h]⟩
    · exact ⟨.Bltu, by simp [BranchFunction.tryFrom, h]⟩
    · exact ⟨.Bgeu, by simp [BranchFunction.tryFrom, h]⟩
  · intro hmem
    simp only [branchDefined, List.mem_cons, List.not_mem_nil, or_false] at hmem
    push_neg at hmem
    obtain ⟨h0, h1, h2, h3, h4, h5⟩ := hmem
    simp [BranchFunction.tryFrom, h0, h1, h2, h3, h4, h5]

theorem regArithTryFrom_cases (value : RType) :
    ((value.funct3, value.funct7) ∈ regArithDefined → ∃ f, RegisterArithmeticFunction.tryFrom value = .ok f) ∧
    ((value.funct3, value.funct7) ∉ regArithDefined →
      RegisterArithmeticFunction.tryFrom value = .error (.InvalidFunction value.funct3 value.funct7)) := by
  constructor
  · intro hmem
    simp only [regArithDefined, List.mem_cons, List.not_mem_nil, or_false, Prod.mk.injEq] at hmem
    rcases hmem with ⟨ha, hb⟩|⟨ha, hb⟩|⟨ha, hb⟩|⟨ha, hb⟩|⟨ha, hb⟩|⟨ha, hb⟩|⟨ha, hb⟩|⟨ha, hb⟩|⟨ha, hb⟩|⟨ha, hb⟩|⟨ha, hb⟩|⟨ha, hb⟩|⟨ha, hb⟩|⟨ha, hb⟩|⟨ha, hb⟩|⟨ha, hb⟩|⟨ha, hb⟩|⟨ha, hb⟩
    · exact ⟨.Add, by simp [RegisterArithmeticFunction.tryFrom, ha, hb]⟩
    · exact ⟨.Sub, by simp [RegisterArithmeticFunction.tryFrom, ha, hb]⟩
    · exact ⟨.Xor, by simp [RegisterArithmeticFunction.tryFrom, ha, hb]⟩
    · exact ⟨.Or, by simp [RegisterArithmeticFunction.tryFrom, ha, hb]⟩
    · exact ⟨.And, by simp [RegisterArithmeticFunction.tryFrom, ha, hb]⟩
    · exact ⟨.Sll, by simp [RegisterArithmeticFunction.tryFrom, ha, hb]⟩
    · exact ⟨.Srl, by simp [RegisterArithmeticFunction.tryFrom, ha, hb]⟩
    · exact ⟨.Sra, by simp [RegisterArithmeticFunction.tryFrom, ha, hb]⟩
    · exact ⟨.Slt, by simp [RegisterArithmeticFunction.tryFrom, ha, hb]⟩
    · exact ⟨.Sltu, by simp [RegisterArithmeticFunction.tryFrom, ha, hb]⟩
    · exact ⟨.Mul, by simp [RegisterArithmeticFunction.tryFrom, ha, hb]⟩
    · exact ⟨.Mulh, by simp [RegisterArithmeticFunction.tryFrom, ha, hb]⟩
    · exact ⟨.Mulhsu, by simp [RegisterArithmeticFunction.tryFrom, ha, hb]⟩
    · exact ⟨.Mulhu, by simp [RegisterArithmeticFunction.tryFrom, ha, hb]⟩
    · exact ⟨.Div, by simp [RegisterArithmeticFunction.tryFrom, ha, hb]⟩
    · exact ⟨.Divu, by simp [RegisterArithmeticFunction.tryFrom, ha, hb]⟩
    · exact ⟨.Rem, by simp [RegisterArithmeticFunction.tryFrom, ha, hb]⟩
    · exact ⟨.Remu, by simp [RegisterArithmeticFunction.tryFrom, ha, hb]⟩
  · intro hmem
    simp only [regArithDefined, List.mem_cons, List.not_mem_nil, or_false, Prod.mk.injEq] at hmem
    simp only [not_or] at hmem
    obtain ⟨h0, h1, h2, h3, h4, h5, h6, h7, h8, h9, h10, h11, h12, h13, h14, h15, h16, h17⟩ := hmem
    simp [RegisterArithmeticFunction.tryFrom, h0, h1, h2, h3, h4, h5, h6, h7, h8, h9, h10, h11, h12, h13, h14, h15, h16, h17]

theorem regArithWordTryFrom_cases (value : RType) :
    ((value.funct3, value.funct7) ∈ regArithWordDefined → ∃ f, RegisterArithmeticWordFunction.tryFrom value = .ok f) ∧
    ((value.funct3, value.funct7) ∉ regArithWordDefined →
      RegisterArithmeticWordFunction.tryFrom value = .error (.InvalidFunction value.funct3 value.funct7)) := by
  constructor
  · intro hmem
    simp only [regArithWordDefined, List.mem_cons, List.not_mem_nil, or_false, Prod.mk.injEq] at hmem
    rcases hmem with ⟨ha, hb⟩|⟨ha, hb⟩|⟨ha, hb⟩|⟨ha, hb⟩|⟨ha, hb⟩|⟨ha, hb⟩|⟨ha, hb⟩|⟨ha, hb⟩|⟨ha, hb⟩|⟨ha, hb⟩
    · exact ⟨.Addw, by simp [RegisterArithmeticWordFunction.tryFrom, ha, hb]⟩
    · exact ⟨.Subw, by simp [RegisterArithmeticWordFunction.tryFrom, ha, hb]⟩
    · exact ⟨.Sllw, by simp [RegisterArithmeticWordFunction.tryFrom, ha, hb]⟩
    · exact ⟨.Srlw, by simp [RegisterArithmeticWordFunction.tryFrom, ha, hb]⟩
    · exact ⟨.Sraw, by simp [RegisterArithmeticWordFunction.tryFrom, ha, hb]⟩
    · exact ⟨.Mulw, by simp [RegisterArithmeticWordFunction.tryFrom, ha, hb]⟩
    · exact ⟨.Divw, by simp [RegisterArithmeticWordFunction.tryFrom, ha, hb]⟩
    · exact ⟨.Divuw, by simp [RegisterArithmeticWordFunction.tryFrom, ha, hb]⟩
    · exact ⟨.Remw, by simp [RegisterArithmeticWordFunction.tryFrom, ha, hb]⟩
    · exact ⟨.Remuw, by simp [RegisterArithmeticWordFunction.tryFrom, ha, hb]⟩
  · intro hmem
    simp only [regArithWordDefined, List.mem_cons, List.not_mem_nil, or_false, Prod.mk.injEq] at hmem
    simp only [not_or] at hmem
    obtain ⟨h0, h1, h2, h3, h4, h5, h6, h7, h8, h9⟩ := hmem
    simp [RegisterArithmeticWordFunction.tryFrom, h0, h1, h2, h3, h4, h5, h6, h7, h8, h9]

theorem immArithTryFrom_cases (value : IType) :
    (immArithDefined value → ∃ f, ImmediateArithmeticFunction.tryFrom value = .ok f) ∧
    (¬ immArithDefined value →
      ImmediateArithmeticFunction.tryFrom value =
        .error (.InvalidFunction value.funct3 (bitsOf value.imm 5 12))) := by
  constructor
  · intro hmem
    unfold immArithDefined at hmem
    rcases hmem with hmem | ⟨h5, hb | hb⟩
    · simp only [List.mem_cons, List.not_mem_nil, or_false] at hmem
      rcases hmem with h|h|h|h|h|h|h
      · exact ⟨.Addi, by simp [ImmediateArithmeticFunction.tryFrom, h]⟩
      · exact ⟨.Slli, by simp [ImmediateArithmeticFunction.tryFrom, h]⟩
      · exact ⟨.Slti, by simp [ImmediateArithmeticFunction.tryFrom, h]⟩
      · exact ⟨.Sltiu, by simp [ImmediateArithmeticFunction.tryFrom, h]⟩
      · exact ⟨.Xori, by simp [ImmediateArithmeticFunction.tryFrom, h]⟩
      · exact ⟨.Ori, by simp [ImmediateArithmeticFunction.tryFrom, h]⟩
      · exact ⟨.Andi, by simp [ImmediateArithmeticFunction.tryFrom, h]⟩
    · exact ⟨.Srli, by simp [ImmediateArithmeticFunction.tryFrom, h5, hb]⟩
    · exact ⟨.Srai, by simp [ImmediateArithmeticFunction.tryFrom, h5, hb]⟩
  · intro hmem
    unfold immArithDefined at hmem
    push_neg at hmem
    obtain ⟨hlist, h5⟩ := hmem
    simp only [List.mem_cons, List.not_mem_nil, or_false] at hlist
    push_neg at hlist
    obtain ⟨h0, h1, h2, h3, h4, h6, h7⟩ := hlist
    by_cases hf5 : value.funct3 = 0x05
    · obtain ⟨hb0, hb10⟩ := h5 hf5
      simp [ImmediateArithmeticFunction.tryFrom, hf5, hb0, hb10]
    · simp [ImmediateArithmeticFunction.tryFrom, h0, h1, h2, h3, h4, h6, h7, hf5]

theorem immArithWordTryFrom_cases (value : IType) :
    (immArithWordDefined value → ∃ f, ImmediateArithmeticWordFunction.tryFrom value = .ok f) ∧
    (¬ immArithWordDefined value →
      ImmediateArithmeticWordFunction.tryFrom value =
        .error (.InvalidFunction value.funct3 (bitsOf value.imm 5 12))) := by
  constructor
  · intro hmem
    unfold immArithWordDefined at hmem
    rcases hmem with h0 | ⟨h1, hb⟩ | ⟨h5, hb | hb⟩
    · exact ⟨.Addiw, by simp [ImmediateArithmeticWordFunction.tryFrom, h0]⟩
    · exact ⟨.Slliw, by simp [ImmediateArithmeticWordFunction.tryFrom, h1, hb]⟩
    · exact ⟨.Srliw, by simp [ImmediateArithmeticWordFunction.tryFrom, h5, hb]⟩
    · exact ⟨.Sraiw, by simp [ImmediateArithmeticWordFunction.tryFrom, h5, hb]⟩
  · intro hmem
    unfold immArithWordDefined at hmem
    push_neg at hmem
    obtain ⟨h0, h1, h5⟩ := hmem
    by_cases hf1 : value.funct3 = 0x01
    · have hb1 := h1 hf1
      by_cases hf5 : value.funct3 = 0x05
      · exact absurd (hf1 ▸ hf5) (by decide)
      · simp [ImmediateArithmeticWordFunction.tryFrom, h0, hf1, hb1, hf5]
    · by_cases hf5 : value.funct3 = 0x05
      · obtain ⟨hb0, hb20⟩ := h5 hf5
        simp [ImmediateArithmeticWordFunction.tryFrom, h0, hf1, hf5, hb0, hb20]
      · simp [ImmediateArithmeticWordFunction.tryFrom, h0, hf1, hf5]

theorem amoTryFrom_cases (value : RType) :
    (bitsOf value.funct7 2 7 ∈ amoDefined → ∃ f, AmoFunction.tryFrom value = .ok f) ∧
    (bitsOf value.funct7 2 7 ∉ amoDefined →
      AmoFunction.tryFrom value = .error (.InvalidFunction (bitsOf value.funct7 2 7) 0)) := by
  constructor
  · intro hmem
    simp only [amoDefined, List.mem_cons, List.not_mem_nil, or_false] at hmem
    rcases hmem with h|h|h|h|h|h|h|h|h|h|h
    · exact ⟨.Lr, by simp [AmoFunction.tryFrom, h]⟩
    · exact ⟨.Sc, by simp [AmoFunction.tryFrom, h]⟩
    · exact ⟨.Amoswap, by simp [AmoFunction.tryFrom, h]⟩
    · exact ⟨.Amoadd, by simp [AmoFunction.tryFrom, h]⟩
    · exact ⟨.Amoxor, by simp [AmoFunction.tryFrom, h]⟩
    · exact ⟨.Amoand, by simp [AmoFunction.tryFrom, h]⟩
    · exact ⟨.Amoor, by simp [AmoFunction.tryFrom, h]⟩
    · exact ⟨.Amomin, by simp [AmoFunction.tryFrom, h]⟩
    · exact ⟨.Amomax, by simp [AmoFunction.tryFrom, h]⟩
    · exact ⟨.Amominu, by simp [AmoFunction.tryFrom, h]⟩
    · exact ⟨.Amomaxu, by simp [AmoFunction.tryFrom, h]⟩
  · intro hmem
    simp only [amoDefined, List.mem_cons, List.not_mem_nil, or_false] at hmem
    push_neg at hmem
    obtain ⟨h0, h1, h2, h3, h4, h5, h6, h7, h8, h9, h10⟩ := hmem
    simp [AmoFunction.tryFrom, h0, h1, h2, h3, h4, h5, h6, h7, h8, h9, h10]

theorem EnvironmentFunction.tryFrom_total (it : IType) :
    EnvironmentFunction.tryFrom it =
      .ok (if it.funct3 = 0 ∧ it.imm = 0 then .Ecall else .Ebreak) := by
  unfold EnvironmentFunction.tryFrom
  split_ifs <;> rfl

/-- C4 counterexample: the claim says any `funct3`/immediate combination of
the `Environment` opcode (`0b1110011`) that is neither ECALL nor EBREAK is
rejected with `InvalidFunction`; but the word `0x00001073`
(opcode `1110011`, `funct3 = 001`, immediate 0 — a CSR encoding, neither
ECALL nor the canonical EBREAK) decodes successfully as `Ebreak`: the
`InvalidFunction` arm of `EnvironmentFunction::try_from` is commented out. -/
theorem c4_environment_counterexample :
    Instruction.tryFrom 0x00001073 =
      .ok (.Environment { rd := 0, funct3 := 1, rs1 := 0, imm := 0 } .Ebreak) := by
  decide

/-- C4 (amended): for 32-bit (non-compressed) words, an unrecognised
top-level opcode fails with `InvalidOpcode(opcode)`; for each recognised
opcode class carrying a sub-classification, decoding succeeds exactly on
the combinations its classification table defines, and every undefined
`funct3`/`funct7` (or immediate-derived qualifier) combination fails with
`InvalidFunction{q_a, q_b}` carrying that class's qualifiers; the classes
without sub-classification (LUI, AUIPC, JAL, JALR, FENCE) always decode —
except that the `Environment` opcode (`0b1110011`) never fails: `funct3 = 0`
with immediate 0 decodes as ECALL and every other combination decodes as
EBREAK.  A concrete undefined combination (a load with `funct3 = 7`) fails
with `InvalidFunction{7, 0}`. -/
theorem c4_decode_errors :
    (∀ w, is_compressed w = false → w % 128 ∉ recognizedOpcodes →
      Instruction.tryFrom w = .error (.InvalidOpcode (w % 128))) ∧
    (∀ w, is_compressed w = false → w % 128 = 0x03 →
      ((IType.decode w).funct3 ∈ loadDefined → ∃ i, Instruction.tryFrom w = .ok i) ∧
      ((IType.decode w).funct3 ∉ loadDefined →
        Instruction.tryFrom w = .error (.InvalidFunction (IType.decode w).funct3 0))) ∧
    (∀ w, is_compressed w = false → w % 128 = 0x23 →
      ((SType.decode w).funct3 ∈ storeDefined → ∃ i, Instruction.tryFrom w = .ok i) ∧
      ((SType.decode w).funct3 ∉ storeDefined →
        Instruction.tryFrom w = .error (.InvalidFunction (SType.decode w).funct3 0))) ∧
    (∀ w, is_compressed w = false → w % 128 = 0x63 →
      ((BType.decode w).funct3 ∈ branchDefined → ∃ i, Instruction.tryFrom w = .ok i) ∧
      ((BType.decode w).funct3 ∉ branchDefined →
        Instruction.tryFrom w = .error (.InvalidFunction (BType.decode w).funct3 0))) ∧
    (∀ w, is_compressed w = false → w % 128 = 0x13 →
      (immArithDefined (IType.decode w) → ∃ i, Instruction.tryFrom w = .ok i) ∧
      (¬ immArithDefined (IType.decode w) →
        Instruction.tryFrom w =
          .error (.InvalidFunction (IType.decode w).funct3 (bitsOf (IType.decode w).imm 5 12)))) ∧
    (∀ w, is_compressed w = false → w % 128 = 0x33 →
      (((RType.decode w).funct3, (RType.decode w).funct7) ∈ regArithDefined →
        ∃ i, Instruction.tryFrom w = .ok i) ∧
      (((RType.decode w).funct3, (RType.decode w).funct7) ∉ regArithDefined →
        Instruction.tryFrom w =
          .error (.InvalidFunction (RType.decode w).funct3 (RType.decode w).funct7))) ∧
    (∀ w, is_compressed w = false → w % 128 = 0x1B →
      (immArithWordDefined (IType.decode w) → ∃ i, Instruction.tryFrom w = .ok i) ∧
      (¬ immArithWordDefined (IType.decode w) →
        Instruction.tryFrom w =
          .error (.InvalidFunction (IType.decode w).funct3 (bitsOf (IType.decode w).imm 5 12)))) ∧
    (∀ w, is_compressed w = false → w % 128 = 0x3B →
      (((RType.decode w).funct3, (RType.decode w).funct7) ∈ regArithWordDefined →
        ∃ i, Instruction.tryFrom w = .ok i) ∧
      (((RType.decode w).funct3, (RType.decode w).funct7) ∉ regArithWordDefined →
        Instruction.tryFrom w =
          .error (.InvalidFunction (RType.decode w).funct3 (RType.decode w).funct7))) ∧
    (∀ w, is_compressed w = false → w % 128 = 0x2F →
      (bitsOf (RType.decode w).funct7 2 7 ∈ amoDefined → ∃ i, Instruction.tryFrom w = .ok i) ∧
      (bitsOf (RType.decode w).funct7 2 7 ∉ amoDefined →
        Instruction.tryFrom w =
          .error (.InvalidFunction (bitsOf (RType.decode w).funct7 2 7) 0))) ∧
    (∀ w, is_compressed w = false → w % 128 ∈ [0x37, 0x17, 0x6F, 0x67, 0x0F] →
      ∃ i, Instruction.tryFrom w = .ok i) ∧
    (∀ w, is_compressed w = false → w % 128 = 0x73 →
      Instruction.tryFrom w =
        .ok (.Environment (IType.decode w)
          (if (IType.decode w).funct3 = 0 ∧ (IType.decode w).imm = 0 then .Ecall
           else .Ebreak))) ∧
    Instruction.tryFrom 0x00007003 = .error (.InvalidFunction 7 0) := by
  refine ⟨?_, ?_, ?_, ?_, ?_, ?_, ?_, ?_, ?_, ?_, ?_, by decide⟩
  · intro w hc hmem
    simp only [recognizedOpcodes, List.mem_cons, List.not_mem_nil, or_false] at hmem
    push_neg at hmem
    obtain ⟨h1, h2, h3, h4, h5, h6, h7, h8, h9, h10, h11, h12, h13, h14⟩ := hmem
    simp [Instruction.tryFrom, hc, h1, h2, h3, h4, h5, h6, h7, h8, h9, h10, h11, h12, h13, h14]
  · intro w hc hop
    constructor
    · intro hmem
      rcases (loadTryFrom_cases (IType.decode w)).1 hmem with ⟨f, hf⟩
      exact ⟨.MemoryLoad (IType.decode w) f,
        by simp [Instruction.tryFrom, hc, hop, hf, Except.map]⟩
    · intro hmem
      have hf := (loadTryFrom_cases (IType.decode w)).2 hmem
      simp [Instruction.tryFrom, hc, hop, hf, Except.map]
  · intro w hc hop
    constructor
    · intro hmem
      rcases (storeTryFrom_cases (SType.decode w)).1 hmem with ⟨f, hf⟩
      exact ⟨.MemoryStore (SType.decode w) f,
        by simp [Instruction.tryFrom, hc, hop, hf, Except.map]⟩
    · intro hmem
      have hf := (storeTryFrom_cases (SType.decode w)).2 hmem
      simp [Instruction.tryFrom, hc, hop, hf, Except.map]
  · intro w hc hop
    constructor
    · intro hmem
      rcases (branchTryFrom_cases (BType.decode w)).1 hmem with ⟨f, hf⟩
      exact ⟨.Branch (BType.decode w) f,
        by simp [Instruction.tryFrom, hc, hop, hf, Except.map]⟩
    · intro hmem
      have hf := (branchTryFrom_cases (BType.decode w)).2 hmem
      simp [Instruction.tryFrom, hc, hop, hf, Except.map]
  · intro w hc hop
    constructor
    · intro hmem
      rcases (immArithTryFrom_cases (IType.decode w)).1 hmem with ⟨f, hf⟩
      exact ⟨.ImmediateArithmetic (IType.decode w) f,
        by simp [Instruction.tryFrom, hc, hop, hf, Except.map]⟩
    · intro hmem
      have hf := (immArithTryFrom_cases (IType.decode w)).2 hmem
      simp [Instruction.tryFrom, hc, hop, hf, Except.map]
  · intro w hc hop
    constructor
    · intro hmem
      rcases (regArithTryFrom_cases (RType.decode w)).1 hmem with ⟨f, hf⟩
      exact ⟨.RegisterArithmetic (RType.decode w) f,
        by simp [Instruction.tryFrom, hc, hop, hf, Except.map]⟩
    · intro hmem
      have hf := (regArithTryFrom_cases (RType.decode w)).2 hmem
      simp [Instruction.tryFrom, hc, hop, hf, Except.map]
  · intro w hc hop
    constructor
    · intro hmem
      rcases (immArithWordTryFrom_cases (IType.decode w)).1 hmem with ⟨f, hf⟩
      exact ⟨.ImmediateArithmeticWord (IType.decode w) f,
        by simp [Instruction.tryFrom, hc, hop, hf, Except.map]⟩
    · intro hmem
      have hf := (immArithWordTryFrom_cases (IType.decode w)).2 hmem
      simp [Instruction.tryFrom, hc, hop, hf, Except.map]
  · intro w hc hop
    constructor
    · intro hmem
      rcases (regArithWordTryFrom_cases (RType.decode w)).1 hmem with ⟨f, hf⟩
      exact ⟨.RegisterArithmeticWord (RType.decode w) f,
        by simp [Instruction.tryFrom, hc, hop, hf, Except.map]⟩
    · intro hmem
      have hf := (regArithWordTryFrom_cases (RType.decode w)).2 hmem
      simp [Instruction.tryFrom, hc, hop, hf, Except.map]
  · intro w hc hop
    constructor
    · intro hmem
      rcases (amoTryFrom_cases (RType.decode w)).1 hmem with ⟨f, hf⟩
      exact ⟨.Amo (RType.decode w) f,
        by simp [Instruction.tryFrom, hc, hop, hf, Except.map]⟩
    · intro hmem
      have hf := (amoTryFrom_cases (RType.decode w)).2 hmem
      simp [Instruction.tryFrom, hc, hop, hf, Except.map]
  · intro w hc hmem
    simp only [List.mem_cons, List.not_mem_nil, or_false] at hmem
    rcases hmem with h | h | h | h | h
    · exact ⟨.Lui (UType.decode w), by simp [Instruction.tryFrom, hc, h]⟩
    · exact ⟨.Auipc (UType.decode w), by simp [Instruction.tryFrom, hc, h]⟩
    · exact ⟨.Jal (JType.decode w), by simp [Instruction.tryFrom, hc, h]⟩
    · exact ⟨.Jalr (IType.decode w), by simp [Instruction.tryFrom, hc, h]⟩
    · exact ⟨.Fence, by simp [Instruction.tryFrom, hc, h]⟩
  · intro w hc h73
    simp [Instruction.tryFrom, hc, h73, EnvironmentFunction.tryFrom_total, Except.map]

/-- C4 witness: the legs instantiated at concrete words — an unrecognised
opcode (`0x7F`), a defined load (`lw`, `0x00002003`) and an undefined one
(`funct3 = 7`, `0x00007003`), a defined register-arithmetic word (`add`,
`0x00500033`) and an undefined one (`funct7 = 2`, `0x04000033`), and the
canonical ECALL (`0x73`). -/
theorem c4_decode_errors_witness :
    Instruction.tryFrom 0x7F = .error (.InvalidOpcode (0x7F % 128)) ∧
    (∃ i, Instruction.tryFrom 0x00002003 = .ok i) ∧
    Instruction.tryFrom 0x00007003 =
      .error (.InvalidFunction (IType.decode 0x00007003).funct3 0) ∧
    (∃ i, Instruction.tryFrom 0x00500033 = .ok i) ∧
    Instruction.tryFrom 0x04000033 =
      .error (.InvalidFunction (RType.decode 0x04000033).funct3 (RType.decode 0x04000033).funct7) ∧
    Instruction.tryFrom 0x73 =
      .ok (.Environment (IType.decode 0x73)
        (if (IType.decode 0x73).funct3 = 0 ∧ (IType.decode 0x73).imm = 0 then .Ecall
         else .Ebreak)) :=
  ⟨c4_decode_errors.1 0x7F (by decide) (by decide),
    (c4_decode_errors.2.1 0x00002003 (by decide) (by decide)).1 (by decide),
    (c4_decode_errors.2.1 0x00007003 (by decide) (by decide)).2 (by decide),
    (c4_decode_errors.2.2.2.2.2.1 0x00500033 (by decide) (by decide)).1 (by decide),
    (c4_decode_errors.2.2.2.2.2.1 0x04000033 (by decide) (by decide)).2 (by decide),
    c4_decode_errors.2.2.2.2.2.2.2.2.2.2.1 0x73 (by decide) (by decide)⟩

/-! ## C3: the ECALL syscall trap carries `a7`. -/

/-- Test kernel that records the syscall number it was handed: it sets
`exit` and stores the number in `exit_code`. -/
def exitKernel : Kernel :=
  fun sysno m r => .ok (0, m, { r with exit := true, exit_code := sysno })

/-- A page whose first word is the ECALL encoding `0x00000073`. -/
def ecallPage : Page := fun off => if off = 0 then 0x73 else 0

/-- A memory whose page 0 is `ecallPage`. -/
def ecallMem : Mem := fun i => if i = 0 then some ecallPage else none

/-- A register file with `a7 = 93` and zeroes elsewhere. -/
def ecallRegs : RegFile := fun j => if j = 17 then 93 else 0

/-- A pipeline register about to decode a fetched ECALL. -/
def ecallState : PipelineRegister :=
  { registers := ecallRegs, instruction_raw := some 0x73 }

/-- An emulator state about to execute an ECALL. -/
def ecallEmu : StEmu := ⟨{ pc := 0, registers := ecallRegs }, ecallMem⟩

/-- C3: whenever the fetched word decodes to `Environment(_, Ecall)`, the
decode stage raises `SyscallException` immediately (after populating the
decoded fields), and the trap value is the current value of register
`a7 = x17` — so the number `cycle` hands to the kernel is `registers[17]`,
never the value of `x0` (the `x0` path in `execute` is dead: decode's error
short-circuits the stage chain before `execute` runs). -/
theorem c3_ecall_syscall_a7 :
    (∀ (r : PipelineRegister) (raw : Nat) (it : IType),
      r.instruction_raw = some raw →
      Instruction.tryFrom raw = .ok (.Environment it .Ecall) →
      decode_instruction r =
        ({ r with rs1_value := some (r.registers it.rs1), rs2_value := none,
                  rd := some it.rd, immediate := some it.imm,
                  instruction := some (.Environment it .Ecall) },
          some (.SyscallException (r.registers REG_A7)))) ∧
    (∀ (k : Kernel) (e : StEmu) (it : IType),
      Instruction.tryFrom (getScalarVal 4 e.memory e.register.pc) =
        .ok (.Environment it .Ecall) →
      cycle k e =
        dispatch_syscall k (e.register.registers REG_A7) e.memory
          ((decode_instruction (instruction_fetch e.register e.memory).1).1)) ∧
    REG_A7 = 17 := by
  have hdecodeL : ∀ (r : PipelineRegister) (raw : Nat) (it : IType),
      r.instruction_raw = some raw →
      Instruction.tryFrom raw = .ok (.Environment it .Ecall) →
      decode_instruction r =
        ({ r with rs1_value := some (r.registers it.rs1), rs2_value := none,
                  rd := some it.rd, immediate := some it.imm,
                  instruction := some (.Environment it .Ecall) },
          some (.SyscallException (r.registers REG_A7))) := by
    intro r raw it hraw htf
    simp [decode_instruction, hraw, htf, Instruction.rs1, Instruction.rs2,
      Instruction.rd, Instruction.immediate, Instruction.is_system_call]
  refine ⟨hdecodeL, ?_, rfl⟩
  intro k e it htf
  have hfetch : instruction_fetch e.register e.memory =
      ({ e.register with
          instruction_raw := some (getScalarVal 4 e.memory e.register.pc)
          next_pc :=
            (e.register.pc +
              if is_compressed (getScalarVal 4 e.memory e.register.pc) then 2 else 4) % W64 },
        none) := rfl
  have hdec := hdecodeL (instruction_fetch e.register e.memory).1
    (getScalarVal 4 e.memory e.register.pc) it (by rw [hfetch]) htf
  unfold cycle stages
  rw [hfetch]
  simp only [hfetch] at hdec
  simp only [hdec]

/-- C3 witness: a concrete ECALL state with `a7 = 93` (and `x0 = 0`). -/
theorem c3_ecall_syscall_a7_witness :
    decode_instruction ecallState =
      ({ ecallState with
          rs1_value := some (ecallState.registers ({ rd := 0, funct3 := 0, rs1 := 0, imm := 0 } : IType).rs1),
          rs2_value := none,
          rd := some ({ rd := 0, funct3 := 0, rs1 := 0, imm := 0 } : IType).rd,
          immediate := some ({ rd := 0, funct3 := 0, rs1 := 0, imm := 0 } : IType).imm,
          instruction := some (.Environment { rd := 0, funct3 := 0, rs1 := 0, imm := 0 } .Ecall) },
        some (.SyscallException (ecallState.registers REG_A7))) ∧
    cycle exitKernel ecallEmu =
      dispatch_syscall exitKernel (ecallEmu.register.registers REG_A7) ecallEmu.memory
        ((decode_instruction (instruction_fetch ecallEmu.register ecallEmu.memory).1).1) :=
  ⟨c3_ecall_syscall_a7.1 ecallState 0x73 { rd := 0, funct3 := 0, rs1 := 0, imm := 0 }
      rfl (by decide),
    c3_ecall_syscall_a7.2.1 exitKernel ecallEmu { rd := 0, funct3 := 0, rs1 := 0, imm := 0 }
      (by decide)⟩

/-! ## C1: LR/SC across cycles. -/

/-- A word read low in page 0 (the code area) is unaffected by an aligned
doubleword write at a disjoint higher address. -/
theorem getScalarVal_setScalarMem_disjoint (m : Mem) (a v b : Nat) (p : Page)
    (hnosplit : a % PAGE_SIZE + 8 ≤ PAGE_SIZE)
    (hb : b + 4 ≤ PAGE_SIZE)
    (hba : b + 4 ≤ a)
    (hp0 : m (b / PAGE_SIZE) = some p) :
    getScalarVal 4 (setScalarMem 8 m a v) b = getScalarVal 4 m b := by
  have hpagepos : 0 < PAGE_SIZE := by norm_num [PAGE_SIZE]
  have hb0 : b / PAGE_SIZE = 0 := Nat.div_eq_of_lt (by omega)
  have hbm : b % PAGE_SIZE = b := Nat.mod_eq_of_lt (by omega)
  have hnos : ¬ (min 8 (PAGE_SIZE - a % PAGE_SIZE) < 8) := by omega
  have hm' : setScalarMem 8 m a v =
      mupd m (a / PAGE_SIZE)
        (pwrite ((m (a / PAGE_SIZE)).getD zeroPage) (a % PAGE_SIZE) (leByte v)
          (min 8 (PAGE_SIZE - a % PAGE_SIZE))) := by
    simp only [setScalarMem, if_neg hnos]
  rw [hb0] at hp0
  by_cases hA : a / PAGE_SIZE = 0
  · -- the write lands in page 0 as well, at offsets at or above `a ≥ b + 4`
    have haPage : a < PAGE_SIZE := by
      rcases Nat.lt_or_ge a PAGE_SIZE with h | h
      · exact h
      · exact absurd hA (by
          have := Nat.div_le_div_right (c := PAGE_SIZE) h
          rw [Nat.div_self hpagepos] at this
          omega)
    have haeq : a % PAGE_SIZE = a := Nat.mod_eq_of_lt haPage
    have hp0' : setScalarMem 8 m a v (b / PAGE_SIZE) =
        some (pwrite p (a % PAGE_SIZE) (leByte v) (min 8 (PAGE_SIZE - a % PAGE_SIZE))) := by
      rw [hb0, hm', ← hA, mupd_self, hA, hp0]
      rfl
    rw [getScalarVal_eq 4 _ b _ hp0', getScalarVal_eq 4 m b p (by rw [hb0]; exact hp0)]
    apply Finset.sum_congr rfl
    intro i hi
    rw [Finset.mem_range] at hi
    rw [if_pos (by omega), if_pos (by omega),
      pwrite_out _ _ _ _ _ (by left; omega)]
  · -- the write lands in a different page; page 0 is untouched
    have hp0' : setScalarMem 8 m a v (b / PAGE_SIZE) = some p := by
      rw [hb0, hm', mupd_ne _ _ _ _ (by omega), hp0]
    rw [getScalarVal_eq 4 _ b _ hp0', getScalarVal_eq 4 m b p (by rw [hb0]; exact hp0)]
    apply Finset.sum_congr rfl
    intro i hi
    rw [Finset.mem_range] at hi
    rw [if_pos (by omega), if_pos (by omega)]

/-- A full cycle executing `lr.d` (8-byte `Lr`): the loaded doubleword lands
in `rd`, the reservation records the address, and the pc advances by 4. -/
theorem cycle_lr (k : Kernel) (r0 : PipelineRegister) (m : Mem) (rt : RType) (w V : Nat)
    (hw : getScalarVal 4 m r0.pc = w)
    (hwc : is_compressed w = false)
    (hdec : Instruction.tryFrom w = .ok (.Amo rt .Lr))
    (hf3 : rt.funct3 = 3)
    (haddr : r0.registers rt.rs1 % 8 = 0)
    (hV : getScalarVal 8 m (r0.registers rt.rs1) = V)
    (hrd : rt.rd ≠ 0) :
    cycle k ⟨r0, m⟩ =
      .ok ⟨{ pc := (r0.pc + 4) % W64,
             registers := rupd r0.registers rt.rd V,
             reservation := some (r0.registers rt.rs1) }, m⟩ := by
  simp [cycle, stages, instruction_fetch, get_word, get_doubleword, getScalar, hw, hwc,
    decode_instruction, hdec, Instruction.rs1, Instruction.rs2, Instruction.rd,
    Instruction.immediate, Instruction.is_system_call, execute, mem_access, hf3, haddr, hV,
    writeback, hrd, PipelineRegister.advance]

/-- A full cycle executing `sc.d` (8-byte `Sc`) with a matching reservation:
memory at the address receives `rs2`, `rd` receives 0, and the reservation
is cleared. -/
theorem cycle_sc_succeed (k : Kernel) (r0 : PipelineRegister) (m : Mem) (rt : RType) (w : Nat)
    (hw : getScalarVal 4 m r0.pc = w)
    (hwc : is_compressed w = false)
    (hdec : Instruction.tryFrom w = .ok (.Amo rt .Sc))
    (hf3 : rt.funct3 = 3)
    (haddr : r0.registers rt.rs1 % 8 = 0)
    (hres : r0.reservation = some (r0.registers rt.rs1))
    (hrd : rt.rd ≠ 0) :
    cycle k ⟨r0, m⟩ =
      .ok ⟨{ pc := (r0.pc + 4) % W64,
             registers := rupd r0.registers rt.rd 0,
             reservation := none },
           setScalarMem 8 m (r0.registers rt.rs1) (r0.registers rt.rs2)⟩ := by
  simp [cycle, stages, instruction_fetch, get_word, set_doubleword, getScalar, setScalar_eq,
    hw, hwc, decode_instruction, hdec, Instruction.rs1, Instruction.rs2, Instruction.rd,
    Instruction.immediate, Instruction.is_system_call, execute, mem_access, hf3, haddr, hres,
    writeback, hrd, PipelineRegister.advance]

/-- A full cycle executing `sc.d` whose reservation does not match: memory
is untouched, `rd` receives 1, and the reservation is cleared. -/
theorem cycle_sc_fail (k : Kernel) (r0 : PipelineRegister) (m : Mem) (rt : RType) (w resv : Nat)
    (hw : getScalarVal 4 m r0.pc = w)
    (hwc : is_compressed w = false)
    (hdec : Instruction.tryFrom w = .ok (.Amo rt .Sc))
    (hf3 : rt.funct3 = 3)
    (haddr : r0.registers rt.rs1 % 8 = 0)
    (hres : r0.reservation = some resv)
    (hne : resv ≠ r0.registers rt.rs1)
    (hrd : rt.rd ≠ 0) :
    cycle k ⟨r0, m⟩ =
      .ok ⟨{ pc := (r0.pc + 4) % W64,
             registers := rupd r0.registers rt.rd 1,
             reservation := none }, m⟩ := by
  simp [cycle, stages, instruction_fetch, get_word, getScalar, hw, hwc,
    decode_instruction, hdec, Instruction.rs1, Instruction.rs2, Instruction.rd,
    Instruction.immediate, Instruction.is_system_call, execute, mem_access, hf3, haddr, hres,
    hne, writeback, hrd, PipelineRegister.advance]

/-- `lr.d x1, (x5)`. -/
def lrWord : Nat := 0x1002B0AF

/-- `sc.d x2, x6, (x5)`. -/
def scWord : Nat := 0x1862B12F

/-- `lr.d x3, (x7)`. -/
def lrWord2 : Nat := 0x1003B1AF

/-- A code page holding the little-endian words `ws` at offsets 0, 4, 8, … -/
def progPage (ws : List Nat) : Page := fun off => leByte (ws.getD (off / 4) 0) (off % 4)

/-- A memory whose page 0 is the program `ws`. -/
def progMem (ws : List Nat) : Mem := fun i => if i = 0 then some (progPage ws) else none

/-- The R-fields of `lrWord`. -/
def lrRt : RType := { rd := 1, funct3 := 3, rs1 := 5, rs2 := 0, funct7 := 8 }

/-- The R-fields of `scWord`. -/
def scRt : RType := { rd := 2, funct3 := 3, rs1 := 5, rs2 := 6, funct7 := 0xC }

/-- The R-fields of `lrWord2`. -/
def lrRt2 : RType := { rd := 3, funct3 := 3, rs1 := 7, rs2 := 0, funct7 := 8 }

/-- Register file for the LR/SC scenarios: `x5 = a`, `x6 = w`, `x7 = aq`. -/
def lrscRegs (a aq w : Nat) : RegFile :=
  fun j => if j = 5 then a else if j = 6 then w else if j = 7 then aq else 0

/-- C1: for every 8-byte-aligned address `a` (past the 12 code bytes) and
every initial doubleword `V` stored at `a`, running `lr.d x1,(x5)` in one
cycle and `sc.d x2,x6,(x5)` in the next (with `x5 = a`, `x6 = w`) succeeds:
`x1` receives `V`, `x2` receives 0, and memory at `a` becomes `w`; whereas
with an intervening `lr.d x3,(x7)` at `x7 = aq ≠ a` between them, the later
`sc.d` at `a` fails: `x2` receives 1 and memory is left unchanged (still
holding `V` at `a`).  The persistence of the reservation across
`advance` is modelled from the spec (its declaration is missing from the
snapshot's `register.rs`). -/
theorem c1_lr_sc_reservation (k : Kernel) (a aq V w : Nat)
    (ha8 : a % 8 = 0) (ha16 : 16 ≤ a) (haW : a < W64)
    (hVW : V < W64) (hwW : w < W64)
    (hq8 : aq % 8 = 0) (hqne : aq ≠ a) :
    (∃ stA stB,
      cycle k ⟨{ pc := 0, registers := lrscRegs a aq w },
        setScalarMem 8 (progMem [lrWord, scWord]) a V⟩ = .ok stA ∧
      cycle k stA = .ok stB ∧
      stA.register.registers 1 = V ∧
      stB.register.registers 2 = 0 ∧
      get_doubleword stB.memory a = .ok w) ∧
    (∃ stC stD stE,
      cycle k ⟨{ pc := 0, registers := lrscRegs a aq w },
        setScalarMem 8 (progMem [lrWord, lrWord2, scWord]) a V⟩ = .ok stC ∧
      cycle k stC = .ok stD ∧
      cycle k stD = .ok stE ∧
      stE.register.registers 2 = 1 ∧
      stE.memory = setScalarMem 8 (progMem [lrWord, lrWord2, scWord]) a V ∧
      get_doubleword stE.memory a = .ok V) := by
  have hns : a % PAGE_SIZE + 8 ≤ PAGE_SIZE := by
    have h1 : a % PAGE_SIZE % 8 = a % 8 := Nat.mod_mod_of_dvd a (by norm_num [PAGE_SIZE])
    have h2 : a % PAGE_SIZE < PAGE_SIZE := Nat.mod_lt _ (by norm_num [PAGE_SIZE])
    simp only [PAGE_SIZE] at *
    omega
  have hV8 : V < 2 ^ (8 * 8) := by
    have : W64 = 2 ^ (8 * 8) := by norm_num [W64]
    omega
  have hw8 : w < 2 ^ (8 * 8) := by
    have : W64 = 2 ^ (8 * 8) := by norm_num [W64]
    omega
  have hreg5 : lrscRegs a aq w 5 = a := by norm_num [lrscRegs]
  have hreg6 : lrscRegs a aq w 6 = w := by norm_num [lrscRegs]
  constructor
  · -- LR at `a` then SC at `a`: success
    have hf0 : getScalarVal 4 (setScalarMem 8 (progMem [lrWord, scWord]) a V) 0 = lrWord := by
      rw [getScalarVal_setScalarMem_disjoint _ a V 0 (progPage [lrWord, scWord]) hns
        (by norm_num [PAGE_SIZE]) (by omega) rfl]
      decide
    have hf4 : getScalarVal 4 (setScalarMem 8 (progMem [lrWord, scWord]) a V) 4 = scWord := by
      rw [getScalarVal_setScalarMem_disjoint _ a V 4 (progPage [lrWord, scWord]) hns
        (by norm_num [PAGE_SIZE]) (by omega) rfl]
      decide
    have hload : getScalarVal 8 (setScalarMem 8 (progMem [lrWord, scWord]) a V) a = V := by
      rw [getScalarVal_setScalarMem 8 (by norm_num), Nat.mod_eq_of_lt hV8]
    have h1 := cycle_lr k { pc := 0, registers := lrscRegs a aq w }
        (setScalarMem 8 (progMem [lrWord, scWord]) a V) lrRt lrWord V
        hf0 (by decide) (by decide) rfl
        (by show lrscRegs a aq w 5 % 8 = 0; rw [hreg5]; exact ha8)
        (by show getScalarVal 8 _ (lrscRegs a aq w 5) = V; rw [hreg5]; exact hload)
        (by decide)
    have h1' : cycle k ⟨{ pc := 0, registers := lrscRegs a aq w },
          setScalarMem 8 (progMem [lrWord, scWord]) a V⟩ =
        .ok ⟨{ pc := 4, registers := rupd (lrscRegs a aq w) 1 V, reservation := some a },
          setScalarMem 8 (progMem [lrWord, scWord]) a V⟩ := by
      rw [h1]
      norm_num [W64, lrRt, hreg5]
    have hreg5B : rupd (lrscRegs a aq w) 1 V 5 = a := by norm_num [rupd, hreg5]
    have hreg6B : rupd (lrscRegs a aq w) 1 V 6 = w := by norm_num [rupd, hreg6]
    have h2 := cycle_sc_succeed k
        { pc := 4, registers := rupd (lrscRegs a aq w) 1 V, reservation := some a }
        (setScalarMem 8 (progMem [lrWord, scWord]) a V) scRt scWord
        hf4 (by decide) (by decide) rfl
        (by show rupd (lrscRegs a aq w) 1 V 5 % 8 = 0; rw [hreg5B]; exact ha8)
        (by show some a = some (rupd (lrscRegs a aq w) 1 V 5); rw [hreg5B])
        (by decide)
    have h2' : cycle k ⟨{ pc := 4, registers := rupd (lrscRegs a aq w) 1 V, reservation := some a },
          setScalarMem 8 (progMem [lrWord, scWord]) a V⟩ =
        .ok ⟨{ pc := 8, registers := rupd (rupd (lrscRegs a aq w) 1 V) 2 0, reservation := none },
          setScalarMem 8 (setScalarMem 8 (progMem [lrWord, scWord]) a V) a w⟩ := by
      rw [h2]
      norm_num [W64, scRt, hreg5B, hreg6B]
    refine ⟨_, _, h1', h2', ?_, ?_, ?_⟩
    · norm_num [rupd]
    · norm_num [rupd]
    · show getScalar 8 _ a = _
      unfold getScalar
      rw [getScalarVal_setScalarMem 8 (by norm_num), Nat.mod_eq_of_lt hw8]
  · -- LR at `a`, LR at `aq ≠ a`, then SC at `a`: failure
    have hf0 : getScalarVal 4 (setScalarMem 8 (progMem [lrWord, lrWord2, scWord]) a V) 0 =
        lrWord := by
      rw [getScalarVal_setScalarMem_disjoint _ a V 0 (progPage [lrWord, lrWord2, scWord]) hns
        (by norm_num [PAGE_SIZE]) (by omega) rfl]
      decide
    have hf4 : getScalarVal 4 (setScalarMem 8 (progMem [lrWord, lrWord2, scWord]) a V) 4 =
        lrWord2 := by
      rw [getScalarVal_setScalarMem_disjoint _ a V 4 (progPage [lrWord, lrWord2, scWord]) hns
        (by norm_num [PAGE_SIZE]) (by omega) rfl]
      decide
    have hf8 : getScalarVal 4 (setScalarMem 8 (progMem [lrWord, lrWord2, scWord]) a V) 8 =
        scWord := by
      rw [getScalarVal_setScalarMem_disjoint _ a V 8 (progPage [lrWord, lrWord2, scWord]) hns
        (by norm_num [PAGE_SIZE]) (by omega) rfl]
      decide
    have hload : getScalarVal 8 (setScalarMem 8 (progMem [lrWord, lrWord2, scWord]) a V) a =
        V := by
      rw [getScalarVal_setScalarMem 8 (by norm_num), Nat.mod_eq_of_lt hV8]
    have h1 := cycle_lr k { pc := 0, registers := lrscRegs a aq w }
        (setScalarMem 8 (progMem [lrWord, lrWord2, scWord]) a V) lrRt lrWord V
        hf0 (by decide) (by decide) rfl
        (by show lrscRegs a aq w 5 % 8 = 0; rw [hreg5]; exact ha8)
        (by show getScalarVal 8 _ (lrscRegs a aq w 5) = V; rw [hreg5]; exact hload)
        (by decide)
    have h1' : cycle k ⟨{ pc := 0, registers := lrscRegs a aq w },
          setScalarMem 8 (progMem [lrWord, lrWord2, scWord]) a V⟩ =
        .ok ⟨{ pc := 4, registers := rupd (lrscRegs a aq w) 1 V, reservation := some a },
          setScalarMem 8 (progMem [lrWord, lrWord2, scWord]) a V⟩ := by
      rw [h1]
      norm_num [W64, lrRt, hreg5]
    have hreg7B : rupd (lrscRegs a aq w) 1 V 7 = aq := by norm_num [rupd, lrscRegs]
    have h2 := cycle_lr k
        { pc := 4, registers := rupd (lrscRegs a aq w) 1 V, reservation := some a }
        (setScalarMem 8 (progMem [lrWord, lrWord2, scWord]) a V) lrRt2 lrWord2
        (getScalarVal 8 (setScalarMem 8 (progMem [lrWord, lrWord2, scWord]) a V) aq)
        hf4 (by decide) (by decide) rfl
        (by show rupd (lrscRegs a aq w) 1 V 7 % 8 = 0; rw [hreg7B]; exact hq8)
        (by show getScalarVal 8 _ (rupd (lrscRegs a aq w) 1 V 7) = _; rw [hreg7B])
        (by decide)
    have h2' : cycle k ⟨{ pc := 4, registers := rupd (lrscRegs a aq w) 1 V, reservation := some a },
          setScalarMem 8 (progMem [lrWord, lrWord2, scWord]) a V⟩ =
        .ok ⟨{ pc := 8, registers := rupd (rupd (lrscRegs a aq w) 1 V) 3 (getScalarVal 8 (setScalarMem 8 (progMem [lrWord, lrWord2, scWord]) a V) aq), reservation := some aq },
          setScalarMem 8 (progMem [lrWord, lrWord2, scWord]) a V⟩ := by
      rw [h2]
      norm_num [W64, lrRt2, hreg7B]
    have hreg5C : rupd (rupd (lrscRegs a aq w) 1 V) 3
        (getScalarVal 8 (setScalarMem 8 (progMem [lrWord, lrWord2, scWord]) a V) aq) 5 = a := by
      norm_num [rupd, lrscRegs]
    have h3 := cycle_sc_fail k
        { pc := 8, registers := rupd (rupd (lrscRegs a aq w) 1 V) 3 (getScalarVal 8 (setScalarMem 8 (progMem [lrWord, lrWord2, scWord]) a V) aq), reservation := some aq }
        (setScalarMem 8 (progMem [lrWord, lrWord2, scWord]) a V) scRt scWord aq
        hf8 (by decide) (by decide) rfl
        (by show rupd (rupd (lrscRegs a aq w) 1 V) 3 (getScalarVal 8 (setScalarMem 8 (progMem [lrWord, lrWord2, scWord]) a V) aq) 5 % 8 = 0; rw [hreg5C]; exact ha8)
        rfl
        (by show aq ≠ rupd (rupd (lrscRegs a aq w) 1 V) 3 (getScalarVal 8 (setScalarMem 8 (progMem [lrWord, lrWord2, scWord]) a V) aq) 5; rw [hreg5C]; exact hqne)
        (by decide)
    refine ⟨_, _, _, h1', h2', h3, ?_, rfl, ?_⟩
    · norm_num [rupd, scRt]
    · show getScalar 8 _ a = _
      unfold getScalar
      rw [hload]

/-- C1 witness: the two scenarios at `a = 4096`, `aq = 8192`, `V = 11`,
`w = 22`, driven by `exitKernel`. -/
theorem c1_lr_sc_reservation_witness :
    (∃ stA stB,
      cycle exitKernel ⟨{ pc := 0, registers := lrscRegs 4096 8192 22 },
        setScalarMem 8 (progMem [lrWord, scWord]) 4096 11⟩ = .ok stA ∧
      cycle exitKernel stA = .ok stB ∧
      stA.register.registers 1 = 11 ∧
      stB.register.registers 2 = 0 ∧
      get_doubleword stB.memory 4096 = .ok 22) ∧
    (∃ stC stD stE,
      cycle exitKernel ⟨{ pc := 0, registers := lrscRegs 4096 8192 22 },
        setScalarMem 8 (progMem [lrWord, lrWord2, scWord]) 4096 11⟩ = .ok stC ∧
      cycle exitKernel stC = .ok stD ∧
      cycle exitKernel stD = .ok stE ∧
      stE.register.registers 2 = 1 ∧
      stE.memory = setScalarMem 8 (progMem [lrWord, lrWord2, scWord]) 4096 11 ∧
      get_doubleword stE.memory 4096 = .ok 11) :=
  c1_lr_sc_reservation exitKernel 4096 8192 11 22 (by decide) (by decide) (by decide)
    (by decide) (by decide) (by decide) (by decide)

end Brisc
